import Mathlib

/-!
Shallow embedding of the interactive chart drawing annotations of the
lightweight-charts plugin subsystem (horizontal/vertical lines, rays,
rectangles, trend lines, long/short position boxes, background regions),
together with proofs about their geometry, hit-testing, options merging
and lifecycle behaviour.

Conventions of the embedding:
* JavaScript numbers are modelled as rationals (`ℚ`).
* Nullable values (`T | null`) are modelled as `Option`.
* `Math.round` is modelled as round-half-up (`⌊x + 1/2⌋`), which is the
  JS semantics for all inputs.
* Hit tests in the source compare `Math.sqrt(d)` against a nonnegative
  tolerance `r`; the embedding compares `d ≤ r ^ 2`, which is equivalent
  since squaring is monotone on nonnegatives.  Likewise the selection of
  the farthest intersection compares squared distances, equivalent by
  strict monotonicity of the square root.
* Canvas 2D context calls are modelled as an emitted list of `CanvasCmd`
  values; text metrics (`measureText`) and numeric display formatting
  (`toFixed(2)`) are host/font dependent and enter as parameters of the
  rendering scope.
-/

namespace LWC

/-- `LineStyle` enum from `renderers/draw-line`. -/
inductive LineStyle
  | solid
  | dotted
  | dashed
  | largeDashed
  | sparseDotted
deriving DecidableEq, Repr

/-- `PrimitiveHoveredItem`: the result of a successful hit test. -/
structure PrimitiveHoveredItem where
  cursorStyle : String
  externalId : String
  zOrder : String
deriving DecidableEq, Repr

/-- JS `Math.round`: round half toward positive infinity. -/
def jround (q : ℚ) : ℚ := (⌊q + 1 / 2⌋ : ℤ)

/-- JS `Math.abs` (kernel-reducible form of `|q|`). -/
def jabs (q : ℚ) : ℚ := if q < 0 then -q else q

/-- Squared Euclidean distance between two points. -/
def distSq (x1 y1 x2 y2 : ℚ) : ℚ := (x2 - x1) ^ 2 + (y2 - y1) ^ 2

/-- `distanceToLineSegment` (shared by trend-line and horizontal-ray
renderers), returning the squared distance; the source returns
`Math.sqrt` of this value and only ever compares it to tolerances. -/
def distSqToSegment (px py x1 y1 x2 y2 : ℚ) : ℚ :=
  let dx := x2 - x1
  let dy := y2 - y1
  let lengthSquared := dx * dx + dy * dy
  if lengthSquared = 0 then
    distSq x1 y1 px py
  else
    let t := ((px - x1) * dx + (py - y1) * dy) / lengthSquared
    let tc := max 0 (min 1 t)
    let closestX := x1 + tc * dx
    let closestY := y1 + tc * dy
    distSq closestX closestY px py

/-- `HIT_TEST_TOLERANCE` (6 px, identical in every renderer). -/
def HIT_TEST_TOLERANCE : ℚ := 6

/-- `ANCHOR_HIT_RADIUS` (8 px, identical in every renderer that has
anchor handles). -/
def ANCHOR_HIT_RADIUS : ℚ := 8

/-- `isNearHorizontalLine` helper of the rectangle and long-position
renderers. -/
def isNearHorizontalLine (px py x1 x2 y tolerance : ℚ) : Prop :=
  min x1 x2 ≤ px ∧ px ≤ max x1 x2 ∧ |py - y| ≤ tolerance

instance (px py x1 x2 y t : ℚ) : Decidable (isNearHorizontalLine px py x1 x2 y t) :=
  inferInstanceAs (Decidable (_ ∧ _ ∧ _))

/-- `isNearVerticalLine` helper of the rectangle and long-position
renderers. -/
def isNearVerticalLine (px py x y1 y2 tolerance : ℚ) : Prop :=
  min y1 y2 ≤ py ∧ py ≤ max y1 y2 ∧ |px - x| ≤ tolerance

instance (px py x y1 y2 t : ℚ) : Decidable (isNearVerticalLine px py x y1 y2 t) :=
  inferInstanceAs (Decidable (_ ∧ _ ∧ _))

/-- `isInsideRect` helper of the long-position renderer. -/
def isInsideRect (px py left right top bottom : ℚ) : Prop :=
  left ≤ px ∧ px ≤ right ∧ top ≤ py ∧ py ≤ bottom

instance (px py l r t b : ℚ) : Decidable (isInsideRect px py l r t b) :=
  inferInstanceAs (Decidable (_ ∧ _ ∧ _ ∧ _))

/-- One canvas 2D context operation, as emitted by a renderer's
`_drawImpl`.  Property assignments (`ctx.lineWidth = …`) are modelled as
setter commands in source order. -/
inductive CanvasCmd
  | save
  | restore
  | beginPath
  | stroke
  | fill
  | setLineWidth (w : ℚ)
  | setStrokeStyle (color : String)
  | setFillStyle (color : String)
  | setLineStyleCmd (style : LineStyle)
  | setFont (font : String)
  | setTextAlign (align : String)
  | setTextBaseline (baseline : String)
  | moveTo (x y : ℚ)
  | lineTo (x y : ℚ)
  | fillRect (x y w h : ℚ)
  | arc (x y radius : ℚ)
  | roundRect (x y w h radius : ℚ)
  | fillText (text : String) (x y : ℚ)
deriving DecidableEq, Repr

/-- `BitmapCoordinatesRenderingScope` plus the host-dependent pieces of
the 2D context: text measurement and `toFixed(2)` formatting. -/
structure BitmapScope where
  horizontalPixelRatio : ℚ
  verticalPixelRatio : ℚ
  measureText : String → ℚ
  toFixed2 : ℚ → String

/-- Nullable screen point (`{ x: Coordinate | null; y: Coordinate | null }`),
declared identically per plugin as `TrendLineRendererPoint`,
`RectangleRendererPoint`, `LongPositionRendererPoint`,
`HorizontalRayRendererPoint`. -/
structure NullablePoint where
  x : Option ℚ
  y : Option ℚ
deriving DecidableEq, Repr

/-- `_drawAnchorPoint`, identical in every renderer that draws anchor
handles: a ring of the anchor color plus a translucent dark fill. -/
def drawAnchorPointCmds (x y : ℚ) (color : String) (pixelRatio : ℚ) : List CanvasCmd :=
  let radius := 5 * pixelRatio
  let borderWidth := 2 * pixelRatio
  [.beginPath, .arc x y radius, .setStrokeStyle color, .setLineWidth borderWidth, .stroke,
   .beginPath, .arc x y (radius - borderWidth / 2), .setFillStyle "rgba(0, 0, 0, 0.6)", .fill]

/-! ## Trend line (`plugins/trend-line`) -/

namespace TrendLine

/-- `TrendLineRendererData`: the renderer snapshot. -/
structure RendererData where
  p1 : NullablePoint
  p2 : NullablePoint
  extendedStart : NullablePoint
  extendedEnd : NullablePoint
  text1 : String
  text2 : String
  lineColor : String
  lineWidth : ℚ
  lineStyle : LineStyle
  showLabels : Bool
  labelBackgroundColor : String
  labelTextColor : String
  extendToEdges : Bool
  externalId : String
  chartWidth : ℚ
  chartHeight : ℚ
  selected : Bool
  anchorPointColor : String
deriving DecidableEq, Repr

/-- Result record of `TrendLine._calculateExtendedLine`. -/
structure ExtendedLine where
  x1 : ℚ
  y1 : ℚ
  x2 : ℚ
  y2 : ℚ
deriving DecidableEq, Repr

/-- The four candidate chart-edge intersections collected by
`_calculateExtendedLine` in the non-degenerate (general slope) branch,
in source order: left edge, right edge, top edge, bottom edge. -/
def edgeIntersections (x1 y1 x2 y2 chartWidth chartHeight : ℚ) : List (ℚ × ℚ) :=
  let slope := (y2 - y1) / (x2 - x1)
  let intercept := y1 - slope * x1
  let yAtLeft := intercept
  let yAtRight := slope * chartWidth + intercept
  let xAtTop := -intercept / slope
  let xAtBottom := (chartHeight - intercept) / slope
  (if 0 ≤ yAtLeft ∧ yAtLeft ≤ chartHeight then [((0 : ℚ), yAtLeft)] else []) ++
  (if 0 ≤ yAtRight ∧ yAtRight ≤ chartHeight then [(chartWidth, yAtRight)] else []) ++
  (if 0 ≤ xAtTop ∧ xAtTop ≤ chartWidth then [(xAtTop, (0 : ℚ))] else []) ++
  (if 0 ≤ xAtBottom ∧ xAtBottom ≤ chartWidth then [(xAtBottom, chartHeight)] else [])

/-- The intersections kept by the `dotProduct > 0` filter of
`_calculateExtendedLine`: displacement from point 1 must have a positive
dot product with the direction vector `(p2 − p1)`. -/
def directionalIntersections (x1 y1 x2 y2 chartWidth chartHeight : ℚ) : List (ℚ × ℚ) :=
  (edgeIntersections x1 y1 x2 y2 chartWidth chartHeight).filter
    (fun p => 0 < (p.1 - x1) * (x2 - x1) + (p.2 - y1) * (y2 - y1))

/-- The accumulator loop of `_calculateExtendedLine`: the pair
`(furthestPoint, maxDistance)` is replaced whenever a point scores
strictly higher. -/
def argmaxFold (f : ℚ × ℚ → ℚ) (z : (ℚ × ℚ) × ℚ) (pts : List (ℚ × ℚ)) : (ℚ × ℚ) × ℚ :=
  pts.foldl (fun acc p => if acc.2 < f p then (p, f p) else acc) z

/-- The `furthestPoint` loop of `_calculateExtendedLine`: starting from
the default `(x2, y2)` with `maxDistance = 0`, replace whenever a point
is strictly farther from `(x1, y1)` (compared on squared distances,
equivalent to the source's square-root comparison). -/
def furthestFrom (x1 y1 : ℚ) (dflt : ℚ × ℚ) (pts : List (ℚ × ℚ)) : ℚ × ℚ :=
  (argmaxFold (fun p => distSq x1 y1 p.1 p.2) (dflt, 0) pts).1

/-- `TrendLine._calculateExtendedLine`: the line starts at p1 and
extends in the direction of p2 to the chart edge (ray behaviour). -/
def calculateExtendedLine (x1 y1 x2 y2 chartWidth chartHeight : ℚ) : ExtendedLine :=
  let dx := x2 - x1
  let dy := y2 - y1
  if jabs dx < 1 / 10000 then
    -- vertical line (infinite slope): extend in the direction from p1 to p2
    if 0 < dy then ⟨x1, y1, x1, chartHeight⟩ else ⟨x1, y1, x1, 0⟩
  else if jabs dy < 1 / 10000 then
    -- horizontal line (zero slope): extend in the direction from p1 to p2
    if 0 < dx then ⟨x1, y1, chartWidth, y1⟩ else ⟨x1, y1, 0, y1⟩
  else
    let q := furthestFrom x1 y1 (x2, y2) (directionalIntersections x1 y1 x2 y2 chartWidth chartHeight)
    ⟨x1, y1, q.1, q.2⟩

/-- `TrendLineRenderer.hitTest`: point-to-segment distance against the
extended segment when extension is enabled, else the raw segment. -/
def hitTest (data : Option RendererData) (x y : ℚ) : Option PrimitiveHoveredItem :=
  match data with
  | none => none
  | some d =>
    let lineP1 := if d.extendToEdges then d.extendedStart else d.p1
    let lineP2 := if d.extendToEdges then d.extendedEnd else d.p2
    match lineP1.x, lineP1.y, lineP2.x, lineP2.y with
    | some lineX1, some lineY1, some lineX2, some lineY2 =>
      if distSqToSegment x y lineX1 lineY1 lineX2 lineY2 ≤ HIT_TEST_TOLERANCE ^ 2 then
        some ⟨"pointer", d.externalId, "normal"⟩
      else
        none
    | _, _, _, _ => none

/-- `TrendLineRenderer._drawLabel`. -/
def drawLabelCmds (scope : BitmapScope) (text : String) (x y : ℚ)
    (backgroundColor textColor : String) (isLeft : Bool) : List CanvasCmd :=
  let offset := 5 * scope.horizontalPixelRatio
  let textWidth := scope.measureText text
  let padding := offset
  let boxWidth := textWidth + padding * 2
  let boxHeight := 12 * scope.verticalPixelRatio + padding
  let boxX := if isLeft then x - boxWidth - offset else x + offset
  let boxY := y - boxHeight / 2
  [.setFont "12px Arial",
   .setFillStyle backgroundColor, .beginPath, .roundRect boxX boxY boxWidth boxHeight 4, .fill,
   .setFillStyle textColor, .setTextBaseline "middle", .fillText text (boxX + padding) y]

/-- `TrendLineRenderer._drawImpl`. -/
def drawImpl (data : Option RendererData) (scope : BitmapScope) : List CanvasCmd :=
  match data with
  | none => []
  | some d =>
    let drawP1 := if d.extendToEdges then d.extendedStart else d.p1
    let drawP2 := if d.extendToEdges then d.extendedEnd else d.p2
    match drawP1.x, drawP1.y, drawP2.x, drawP2.y with
    | some drawX1, some drawY1, some drawX2, some drawY2 =>
      let hR := scope.horizontalPixelRatio
      let vR := scope.verticalPixelRatio
      let x1Scaled := jround (drawX1 * hR)
      let y1Scaled := jround (drawY1 * vR)
      let x2Scaled := jround (drawX2 * hR)
      let y2Scaled := jround (drawY2 * vR)
      ([.save, .setLineWidth (d.lineWidth * hR), .setStrokeStyle d.lineColor,
        .setLineStyleCmd d.lineStyle, .beginPath, .moveTo x1Scaled y1Scaled,
        .lineTo x2Scaled y2Scaled, .stroke, .restore] ++
       (match d.showLabels, d.p1.x, d.p1.y, d.p2.x, d.p2.y with
        | true, some p1x, some p1y, some p2x, some p2y =>
          drawLabelCmds scope d.text1 (jround (p1x * hR)) (jround (p1y * vR))
              d.labelBackgroundColor d.labelTextColor true ++
          drawLabelCmds scope d.text2 (jround (p2x * hR)) (jround (p2y * vR))
              d.labelBackgroundColor d.labelTextColor false
        | _, _, _, _, _ => []) ++
       (match d.selected, d.p1.x, d.p1.y, d.p2.x, d.p2.y with
        | true, some p1x, some p1y, some p2x, some p2y =>
          drawAnchorPointCmds (jround (p1x * hR)) (jround (p1y * vR)) d.anchorPointColor hR ++
          drawAnchorPointCmds (jround (p2x * hR)) (jround (p2y * vR)) d.anchorPointColor hR
        | _, _, _, _, _ => []))
    | _, _, _, _ => []

end TrendLine

/-! ## Rectangle (`plugins/rectangle`) -/

namespace Rectangle

/-- `RectangleExtendMode` from `plugins/rectangle/options`. -/
inductive ExtendMode
  | none
  | left
  | right
  | both
deriving DecidableEq, Repr

/-- `RectangleRendererData`: the renderer snapshot. -/
structure RendererData where
  p1 : NullablePoint
  p2 : NullablePoint
  drawLeft : ℚ
  drawRight : ℚ
  drawTop : ℚ
  drawBottom : ℚ
  lineColor : String
  lineWidth : ℚ
  lineStyle : LineStyle
  backgroundColor : String
  labelText : String
  showLabel : Bool
  labelBackgroundColor : String
  labelTextColor : String
  extendMode : ExtendMode
  externalId : String
  chartWidth : ℚ
  chartHeight : ℚ
  selected : Bool
  anchorPointColor : String
  showMiddleLine : Bool
  middleLineColor : String
  middleLineStyle : LineStyle
  middleLineWidth : ℚ
deriving DecidableEq, Repr

/-- `RectangleRenderer._hitTestAnchorPoints`: the two defining corners,
checked in index order; a hit is reported with the anchor index encoded
in the external id. -/
def hitTestAnchorPoints (x y : ℚ) (p1 p2 : NullablePoint) (externalId : String) :
    Option PrimitiveHoveredItem :=
  let hit1 : Option PrimitiveHoveredItem :=
    match p1.x, p1.y with
    | some p1x, some p1y =>
      if distSq x y p1x p1y ≤ ANCHOR_HIT_RADIUS ^ 2 then
        some ⟨"grab", externalId ++ ":anchor:0", "normal"⟩
      else none
    | _, _ => none
  match hit1 with
  | some r => some r
  | none =>
    match p2.x, p2.y with
    | some p2x, some p2y =>
      if distSq x y p2x p2y ≤ ANCHOR_HIT_RADIUS ^ 2 then
        some ⟨"grab", externalId ++ ":anchor:1", "normal"⟩
      else none
    | _, _ => none

/-- `RectangleRenderer.hitTest`: when selected, anchor points are
checked first (higher priority than borders); then the visible borders
(left/right suppressed by the extend mode) and the optional middle line. -/
def hitTest (data : Option RendererData) (x y : ℚ) : Option PrimitiveHoveredItem :=
  match data with
  | none => none
  | some d =>
    let anchorResult : Option PrimitiveHoveredItem :=
      if d.selected then hitTestAnchorPoints x y d.p1 d.p2 d.externalId else none
    match anchorResult with
    | some r => some r
    | none =>
      if isNearHorizontalLine x y d.drawLeft d.drawRight d.drawTop HIT_TEST_TOLERANCE ∨
          isNearHorizontalLine x y d.drawLeft d.drawRight d.drawBottom HIT_TEST_TOLERANCE ∨
          ((d.extendMode ≠ ExtendMode.left ∧ d.extendMode ≠ ExtendMode.both) ∧
            isNearVerticalLine x y d.drawLeft d.drawTop d.drawBottom HIT_TEST_TOLERANCE) ∨
          ((d.extendMode ≠ ExtendMode.right ∧ d.extendMode ≠ ExtendMode.both) ∧
            isNearVerticalLine x y d.drawRight d.drawTop d.drawBottom HIT_TEST_TOLERANCE) ∨
          (d.showMiddleLine = true ∧
            isNearHorizontalLine x y d.drawLeft d.drawRight
              ((d.drawTop + d.drawBottom) / 2) HIT_TEST_TOLERANCE) then
        some ⟨"pointer", d.externalId, "normal"⟩
      else
        none

/-- `RectangleRenderer._drawLabel`. -/
def drawLabelCmds (scope : BitmapScope) (text : String) (x y : ℚ)
    (backgroundColor textColor : String) : List CanvasCmd :=
  let padding := 5 * scope.horizontalPixelRatio
  let textWidth := scope.measureText text
  let textHeight := 12 * scope.verticalPixelRatio
  let boxWidth := textWidth + padding * 2
  let boxHeight := textHeight + padding
  let boxX := x - boxWidth / 2
  let boxY := y
  [.setFont (toString (12 * scope.verticalPixelRatio) ++ "px Arial"),
   .setFillStyle backgroundColor, .beginPath, .roundRect boxX boxY boxWidth boxHeight 4, .fill,
   .setFillStyle textColor, .setTextBaseline "middle", .setTextAlign "center",
   .fillText text x (boxY + boxHeight / 2)]

/-- `RectangleRenderer._drawImpl`. -/
def drawImpl (data : Option RendererData) (scope : BitmapScope) : List CanvasCmd :=
  match data with
  | none => []
  | some d =>
    let hR := scope.horizontalPixelRatio
    let vR := scope.verticalPixelRatio
    let leftScaled := jround (d.drawLeft * hR)
    let rightScaled := jround (d.drawRight * hR)
    let topScaled := jround (d.drawTop * vR)
    let bottomScaled := jround (d.drawBottom * vR)
    let rectWidth := rightScaled - leftScaled
    let rectHeight := bottomScaled - topScaled
    [.save, .setFillStyle d.backgroundColor,
     .fillRect leftScaled topScaled rectWidth rectHeight, .restore,
     .save, .setLineWidth (d.lineWidth * hR), .setStrokeStyle d.lineColor,
     .setLineStyleCmd d.lineStyle,
     .beginPath, .moveTo leftScaled topScaled, .lineTo rightScaled topScaled, .stroke,
     .beginPath, .moveTo leftScaled bottomScaled, .lineTo rightScaled bottomScaled, .stroke] ++
    (if d.extendMode ≠ ExtendMode.left ∧ d.extendMode ≠ ExtendMode.both then
      [.beginPath, .moveTo leftScaled topScaled, .lineTo leftScaled bottomScaled, .stroke]
    else []) ++
    (if d.extendMode ≠ ExtendMode.right ∧ d.extendMode ≠ ExtendMode.both then
      [.beginPath, .moveTo rightScaled topScaled, .lineTo rightScaled bottomScaled, .stroke]
    else []) ++
    [.restore] ++
    (if d.showMiddleLine then
      let middleY := jround ((topScaled + bottomScaled) / 2)
      [.save, .setLineWidth (d.middleLineWidth * hR), .setStrokeStyle d.middleLineColor,
       .setLineStyleCmd d.middleLineStyle,
       .beginPath, .moveTo leftScaled middleY, .lineTo rightScaled middleY, .stroke, .restore]
    else []) ++
    (if d.showLabel = true ∧ 0 < d.labelText.length then
      drawLabelCmds scope d.labelText (leftScaled + rectWidth / 2)
        (topScaled + 10 * vR) d.labelBackgroundColor d.labelTextColor
    else []) ++
    (match d.selected, d.p1.x, d.p1.y, d.p2.x, d.p2.y with
     | true, some p1x, some p1y, some p2x, some p2y =>
       drawAnchorPointCmds (jround (p1x * hR)) (jround (p1y * vR)) d.anchorPointColor hR ++
       drawAnchorPointCmds (jround (p2x * hR)) (jround (p2y * vR)) d.anchorPointColor hR
     | _, _, _, _, _ => [])

end Rectangle

/-! ## Long/short position (`plugins/long-position`) -/

namespace LongPosition

/-- `PositionDirection` (`"long" | "short"`). -/
inductive PositionDirection
  | long
  | short
deriving DecidableEq, Repr

/-- `LongPositionRendererData`: the renderer snapshot. -/
structure RendererData where
  entry : NullablePoint
  targetY : Option ℚ
  stopY : Option ℚ
  rightX : Option ℚ
  entryPrice : ℚ
  targetPrice : ℚ
  stopPrice : ℚ
  lineColor : String
  lineWidth : ℚ
  lineStyle : LineStyle
  profitBackgroundColor : String
  riskBackgroundColor : String
  entryLineColor : String
  externalId : String
  chartWidth : ℚ
  chartHeight : ℚ
  selected : Bool
  anchorPointColor : String
  labelBackgroundColor : String
  labelTextColor : String
  targetLabelBackgroundColor : String
  stopLabelBackgroundColor : String
  direction : PositionDirection
deriving DecidableEq, Repr

/-- The direction-dependent percentage/delta/risk-reward computation of
`LongPositionRenderer._drawImpl` (its "Calculate percentages and
risk/reward based on direction" block). -/
structure PositionMetrics where
  targetDelta : ℚ
  stopDelta : ℚ
  targetPct : ℚ
  stopPct : ℚ
  riskRewardRatio : ℚ
deriving DecidableEq, Repr

/-- For `long`, target-delta is `target − entry` and stop-delta is
`entry − stop`; for `short` both are computed with the operands swapped.
The ratio falls back to 0 when stop-delta is exactly 0. -/
def computeMetrics (direction : PositionDirection) (entryPrice targetPrice stopPrice : ℚ) :
    PositionMetrics :=
  if direction = PositionDirection.long then
    let targetDelta := targetPrice - entryPrice
    let stopDelta := entryPrice - stopPrice
    ⟨targetDelta, stopDelta, targetDelta / entryPrice * 100, stopDelta / entryPrice * 100,
      if stopDelta ≠ 0 then targetDelta / stopDelta else 0⟩
  else
    let targetDelta := entryPrice - targetPrice
    let stopDelta := stopPrice - entryPrice
    ⟨targetDelta, stopDelta, targetDelta / entryPrice * 100, stopDelta / entryPrice * 100,
      if stopDelta ≠ 0 then targetDelta / stopDelta else 0⟩

/-- `LongPositionRenderer._hitTestAnchorPoints`: entry, target, stop and
width anchors, checked in that order. -/
def hitTestAnchorPoints (x y : ℚ) (entry : NullablePoint) (targetY stopY rightX : ℚ)
    (externalId : String) : Option PrimitiveHoveredItem :=
  match entry.x, entry.y with
  | some entryX, some entryY =>
    if distSq x y entryX entryY ≤ ANCHOR_HIT_RADIUS ^ 2 then
      some ⟨"grab", externalId ++ ":anchor:0", "normal"⟩
    else if distSq x y entryX targetY ≤ ANCHOR_HIT_RADIUS ^ 2 then
      some ⟨"ns-resize", externalId ++ ":anchor:1", "normal"⟩
    else if distSq x y entryX stopY ≤ ANCHOR_HIT_RADIUS ^ 2 then
      some ⟨"ns-resize", externalId ++ ":anchor:2", "normal"⟩
    else if distSq x y rightX entryY ≤ ANCHOR_HIT_RADIUS ^ 2 then
      some ⟨"ew-resize", externalId ++ ":anchor:3", "normal"⟩
    else
      none
  | _, _ => none

/-- `LongPositionRenderer.hitTest`: anchors first when selected, then
borders, entry line, and interior of the rectangle. -/
def hitTest (data : Option RendererData) (x y : ℚ) : Option PrimitiveHoveredItem :=
  match data with
  | none => none
  | some d =>
    match d.entry.x, d.entry.y, d.targetY, d.stopY, d.rightX with
    | some entryX, some entryY, some targetY, some stopY, some rightX =>
      let left := entryX
      let right := rightX
      let top := min targetY (min entryY stopY)
      let bottom := max targetY (max entryY stopY)
      let anchorResult : Option PrimitiveHoveredItem :=
        if d.selected then hitTestAnchorPoints x y d.entry targetY stopY rightX d.externalId
        else none
      match anchorResult with
      | some r => some r
      | none =>
        if isNearHorizontalLine x y left right top HIT_TEST_TOLERANCE ∨
            isNearHorizontalLine x y left right bottom HIT_TEST_TOLERANCE ∨
            isNearVerticalLine x y left top bottom HIT_TEST_TOLERANCE ∨
            isNearVerticalLine x y right top bottom HIT_TEST_TOLERANCE ∨
            isNearHorizontalLine x y left right entryY HIT_TEST_TOLERANCE ∨
            isInsideRect x y left right top bottom then
          some ⟨"pointer", d.externalId, "normal"⟩
        else
          none
    | _, _, _, _, _ => none

/-- `LongPositionRenderer._drawLabel` (vertical alignment variant). -/
def drawLabelCmds (scope : BitmapScope) (text : String) (x y : ℚ)
    (backgroundColor textColor : String) (verticalAlign : String) : List CanvasCmd :=
  let padding := 4 * scope.horizontalPixelRatio
  let fontSize := 11 * scope.verticalPixelRatio
  let textWidth := scope.measureText text
  let textHeight := fontSize
  let boxWidth := textWidth + padding * 2
  let boxHeight := textHeight + padding
  let boxX := x - boxWidth / 2
  let boxY :=
    if verticalAlign = "top" then y
    else if verticalAlign = "bottom" then y - boxHeight
    else y - boxHeight / 2
  [.setFont (toString fontSize ++ "px Arial"),
   .setFillStyle backgroundColor, .beginPath, .roundRect boxX boxY boxWidth boxHeight 3, .fill,
   .setFillStyle textColor, .setTextBaseline "middle", .setTextAlign "center",
   .fillText text x (boxY + boxHeight / 2)]

/-- `LongPositionRenderer._drawImpl`. -/
def drawImpl (data : Option RendererData) (scope : BitmapScope) : List CanvasCmd :=
  match data with
  | none => []
  | some d =>
    match d.entry.x, d.entry.y, d.targetY, d.stopY, d.rightX with
    | some entryX, some entryY, some targetY, some stopY, some rightX =>
      let hR := scope.horizontalPixelRatio
      let vR := scope.verticalPixelRatio
      let leftScaled := jround (entryX * hR)
      let rightScaled := jround (rightX * hR)
      let entryYScaled := jround (entryY * vR)
      let targetYScaled := jround (targetY * vR)
      let stopYScaled := jround (stopY * vR)
      let rectWidth := rightScaled - leftScaled
      let profitTop := min targetYScaled entryYScaled
      let profitBottom := max targetYScaled entryYScaled
      let riskTop := min entryYScaled stopYScaled
      let riskBottom := max entryYScaled stopYScaled
      let m := computeMetrics d.direction d.entryPrice d.targetPrice d.stopPrice
      let targetText :=
        "Target: " ++ scope.toFixed2 m.targetDelta ++ " (" ++ scope.toFixed2 m.targetPct ++ "%)"
      let stopText :=
        "Stop: " ++ scope.toFixed2 m.stopDelta ++ " (" ++ scope.toFixed2 m.stopPct ++ "%)"
      [.save, .setFillStyle d.profitBackgroundColor,
       .fillRect leftScaled profitTop rectWidth (profitBottom - profitTop), .restore,
       .save, .setFillStyle d.riskBackgroundColor,
       .fillRect leftScaled riskTop rectWidth (riskBottom - riskTop), .restore,
       .save, .setLineWidth (d.lineWidth * hR), .setStrokeStyle d.entryLineColor,
       .setLineStyleCmd LineStyle.dashed,
       .beginPath, .moveTo leftScaled entryYScaled, .lineTo rightScaled entryYScaled,
       .stroke, .restore] ++
      (if d.direction = PositionDirection.long then
        drawLabelCmds scope targetText (leftScaled + rectWidth / 2)
          (targetYScaled - 8 * vR) d.targetLabelBackgroundColor d.labelTextColor "bottom" ++
        drawLabelCmds scope stopText (leftScaled + rectWidth / 2)
          (stopYScaled + 8 * vR) d.stopLabelBackgroundColor d.labelTextColor "top"
      else
        drawLabelCmds scope targetText (leftScaled + rectWidth / 2)
          (targetYScaled + 8 * vR) d.targetLabelBackgroundColor d.labelTextColor "top" ++
        drawLabelCmds scope stopText (leftScaled + rectWidth / 2)
          (stopYScaled - 8 * vR) d.stopLabelBackgroundColor d.labelTextColor "bottom") ++
      drawLabelCmds scope ("Risk/Reward: " ++ scope.toFixed2 m.riskRewardRatio)
        (leftScaled + rectWidth / 2) entryYScaled "#ffffff" "#000000" "middle" ++
      (if d.selected then
        drawAnchorPointCmds leftScaled entryYScaled d.anchorPointColor hR ++
        drawAnchorPointCmds leftScaled targetYScaled d.anchorPointColor hR ++
        drawAnchorPointCmds leftScaled stopYScaled d.anchorPointColor hR ++
        drawAnchorPointCmds rightScaled entryYScaled d.anchorPointColor hR
      else [])
    | _, _, _, _, _ => []

end LongPosition

/-! ## Horizontal line (`plugins/horizontal-line`) -/

namespace HorizontalLine

/-- `HorizontalLineRendererData`: the renderer snapshot. -/
structure RendererData where
  y : Option ℚ
  lineColor : String
  lineWidth : ℚ
  lineStyle : LineStyle
  externalId : String
  chartWidth : ℚ
  selected : Bool
  anchorPointColor : String
  anchorOffsetFromRight : ℚ
deriving DecidableEq, Repr

/-- `HorizontalLineOptions` from `plugins/horizontal-line/options`. -/
structure Options where
  lineColor : String
  lineWidth : ℚ
  lineStyle : LineStyle
  showPriceLabel : Bool
  externalId : String
  selected : Bool
  anchorPointColor : String
  anchorOffsetFromRight : ℚ
deriving DecidableEq, Repr

/-- `horizontalLineOptionsDefaults`. -/
def optionsDefaults : Options :=
  { lineColor := "#f97316"
    lineWidth := 2
    lineStyle := LineStyle.solid
    showPriceLabel := true
    externalId := ""
    selected := false
    anchorPointColor := "#2962ff"
    anchorOffsetFromRight := 50 }

/-- The snapshot built by `HorizontalLine._calculateRendererData` once
the price has been projected to the (possibly null) `y` coordinate and
the chart width has been read from the time scale. -/
def rendererDataOf (options : Options) (y : Option ℚ) (chartWidth : ℚ) : RendererData :=
  { y := y
    lineColor := options.lineColor
    lineWidth := options.lineWidth
    lineStyle := options.lineStyle
    externalId := options.externalId
    chartWidth := chartWidth
    selected := options.selected
    anchorPointColor := options.anchorPointColor
    anchorOffsetFromRight := options.anchorOffsetFromRight }

/-- `HorizontalLineRenderer._hitTestAnchorPoint`. -/
def hitTestAnchorPoint (x y anchorX anchorY : ℚ) (externalId : String) :
    Option PrimitiveHoveredItem :=
  if distSq x y anchorX anchorY ≤ ANCHOR_HIT_RADIUS ^ 2 then
    some ⟨"grab", externalId ++ ":anchor:0", "normal"⟩
  else
    none

/-- `HorizontalLineRenderer.hitTest`: anchor point first when selected,
then vertical distance to the line only. -/
def hitTest (data : Option RendererData) (x y : ℚ) : Option PrimitiveHoveredItem :=
  match data with
  | none => none
  | some d =>
    match d.y with
    | none => none
    | some lineY =>
      let anchorResult : Option PrimitiveHoveredItem :=
        if d.selected then
          hitTestAnchorPoint x y (d.chartWidth - d.anchorOffsetFromRight) lineY d.externalId
        else none
      match anchorResult with
      | some r => some r
      | none =>
        if jabs (y - lineY) ≤ HIT_TEST_TOLERANCE then
          some ⟨"pointer", d.externalId, "normal"⟩
        else
          none

/-- `HorizontalLineRenderer._drawImpl`. -/
def drawImpl (data : Option RendererData) (scope : BitmapScope) : List CanvasCmd :=
  match data with
  | none => []
  | some d =>
    match d.y with
    | none => []
    | some lineY =>
      let hR := scope.horizontalPixelRatio
      let vR := scope.verticalPixelRatio
      let yScaled := jround (lineY * vR)
      let x2Scaled := jround (d.chartWidth * hR)
      [.save, .setLineWidth (d.lineWidth * hR), .setStrokeStyle d.lineColor,
       .setLineStyleCmd d.lineStyle, .beginPath, .moveTo 0 yScaled,
       .lineTo x2Scaled yScaled, .stroke, .restore] ++
      (if d.selected then
        drawAnchorPointCmds (jround ((d.chartWidth - d.anchorOffsetFromRight) * hR)) yScaled
          d.anchorPointColor hR
      else [])

end HorizontalLine

/-! ## Vertical line (`plugins/vertical-line`) -/

namespace VerticalLine

/-- `VerticalLineRendererData`: the renderer snapshot. -/
structure RendererData where
  x : Option ℚ
  timeLabel : String
  lineColor : String
  lineWidth : ℚ
  lineStyle : LineStyle
  showTimeLabel : Bool
  labelBackgroundColor : String
  labelTextColor : String
  externalId : String
  chartWidth : ℚ
  chartHeight : ℚ
  selected : Bool
  anchorPointColor : String
  anchorOffsetFromBottom : ℚ
deriving DecidableEq, Repr

/-- `VerticalLineRenderer._hitTestAnchorPoint`. -/
def hitTestAnchorPoint (x y anchorX anchorY : ℚ) (externalId : String) :
    Option PrimitiveHoveredItem :=
  if distSq x y anchorX anchorY ≤ ANCHOR_HIT_RADIUS ^ 2 then
    some ⟨"grab", externalId ++ ":anchor:0", "normal"⟩
  else
    none

/-- `VerticalLineRenderer.hitTest`: anchor point first when selected,
then horizontal distance to the line only. -/
def hitTest (data : Option RendererData) (x y : ℚ) : Option PrimitiveHoveredItem :=
  match data with
  | none => none
  | some d =>
    match d.x with
    | none => none
    | some lineX =>
      let anchorResult : Option PrimitiveHoveredItem :=
        if d.selected then
          hitTestAnchorPoint x y lineX (d.chartHeight - d.anchorOffsetFromBottom) d.externalId
        else none
      match anchorResult with
      | some r => some r
      | none =>
        if jabs (x - lineX) ≤ HIT_TEST_TOLERANCE then
          some ⟨"pointer", d.externalId, "normal"⟩
        else
          none

/-- `VerticalLineRenderer._drawTimeLabel`: a two-layer rounded box
(outer border-colored, inner background-colored) above the bottom edge.
The quote marks inside the CSS font-family list are omitted. -/
def drawTimeLabelCmds (scope : BitmapScope) (x bottom : ℚ)
    (label bgColor textColor borderColor : String) : List CanvasCmd :=
  let hR := scope.horizontalPixelRatio
  let vR := scope.verticalPixelRatio
  let fontSize := jround (11 * vR)
  let textWidth := scope.measureText label
  let textHeight := fontSize
  let paddingX := 6 * hR
  let paddingY := 4 * vR
  let bottomMargin := 4 * vR
  let boxWidth := textWidth + paddingX * 2
  let boxHeight := textHeight + paddingY * 2
  let boxX := x - boxWidth / 2
  let boxY := bottom - boxHeight - bottomMargin
  let borderWidth := 1 * hR
  [.setFont (toString fontSize ++ "px -apple-system, BlinkMacSystemFont, Segoe UI, Roboto, sans-serif"),
   .save, .setFillStyle borderColor, .beginPath,
   .roundRect boxX boxY boxWidth boxHeight (3 * hR), .fill,
   .setFillStyle bgColor, .beginPath,
   .roundRect (boxX + borderWidth) (boxY + borderWidth)
     (boxWidth - borderWidth * 2) (boxHeight - borderWidth * 2) (2 * hR), .fill,
   .setFillStyle textColor, .setTextAlign "center", .setTextBaseline "middle",
   .fillText label x (boxY + boxHeight / 2), .restore]

/-- `VerticalLineRenderer._drawImpl`. -/
def drawImpl (data : Option RendererData) (scope : BitmapScope) : List CanvasCmd :=
  match data with
  | none => []
  | some d =>
    match d.x with
    | none => []
    | some x =>
      let hR := scope.horizontalPixelRatio
      let vR := scope.verticalPixelRatio
      let scaledX := jround (x * hR)
      let scaledBottom := jround (d.chartHeight * vR)
      [.save, .setLineWidth (d.lineWidth * hR), .setStrokeStyle d.lineColor,
       .setLineStyleCmd d.lineStyle, .beginPath, .moveTo scaledX 0,
       .lineTo scaledX scaledBottom, .stroke, .restore] ++
      (if d.showTimeLabel = true ∧ d.timeLabel ≠ "" then
        drawTimeLabelCmds scope scaledX scaledBottom d.timeLabel
          d.labelBackgroundColor d.labelTextColor d.lineColor
      else []) ++
      (if d.selected then
        drawAnchorPointCmds scaledX (jround ((d.chartHeight - d.anchorOffsetFromBottom) * vR))
          d.anchorPointColor hR
      else [])

end VerticalLine

/-! ## Horizontal ray (`plugins/horizontal-ray`) -/

namespace HorizontalRay

/-- `HorizontalRayRendererData`: the renderer snapshot. -/
structure RendererData where
  anchor : NullablePoint
  endPoint : NullablePoint
  priceLabel : String
  lineColor : String
  lineWidth : ℚ
  lineStyle : LineStyle
  showPriceLabel : Bool
  labelBackgroundColor : String
  labelTextColor : String
  externalId : String
  chartWidth : ℚ
  chartHeight : ℚ
  selected : Bool
  anchorPointColor : String
deriving DecidableEq, Repr

/-- `HorizontalRayRenderer.hitTest`: segment distance first, then a
fallback distance check against the anchor point itself (both against
the 6 px tolerance). -/
def hitTest (data : Option RendererData) (x y : ℚ) : Option PrimitiveHoveredItem :=
  match data with
  | none => none
  | some d =>
    match d.anchor.x, d.anchor.y, d.endPoint.x, d.endPoint.y with
    | some anchorX, some anchorY, some endX, some endY =>
      if distSqToSegment x y anchorX anchorY endX endY ≤ HIT_TEST_TOLERANCE ^ 2 then
        some ⟨"pointer", d.externalId, "normal"⟩
      else if distSq x y anchorX anchorY ≤ HIT_TEST_TOLERANCE ^ 2 then
        some ⟨"pointer", d.externalId, "normal"⟩
      else
        none
    | _, _, _, _ => none

/-- `HorizontalRayRenderer._drawImpl`. -/
def drawImpl (data : Option RendererData) (scope : BitmapScope) : List CanvasCmd :=
  match data with
  | none => []
  | some d =>
    match d.anchor.x, d.anchor.y, d.endPoint.x, d.endPoint.y with
    | some anchorX, some anchorY, some endX, some endY =>
      let hR := scope.horizontalPixelRatio
      let vR := scope.verticalPixelRatio
      let x1 := jround (anchorX * hR)
      let y1 := jround (anchorY * vR)
      let x2 := jround (endX * hR)
      let y2 := jround (endY * vR)
      [.save, .setLineWidth (d.lineWidth * hR), .setStrokeStyle d.lineColor,
       .setLineStyleCmd d.lineStyle, .beginPath, .moveTo x1 y1,
       .lineTo x2 y2, .stroke, .restore] ++
      (if d.selected then drawAnchorPointCmds x1 y1 d.anchorPointColor hR else [])
    | _, _, _, _ => []

end HorizontalRay

/-! ## Background regions (`plugins/background-regions`) -/

namespace BackgroundRegions

/-- `BackgroundRegionRendererData`: one full-height colored region. -/
structure RegionData where
  x : ℚ
  color : String
  barWidth : ℚ
deriving DecidableEq, Repr

/-- `BackgroundRegionsRendererData`: the renderer snapshot. -/
structure RendererData where
  regions : List RegionData
  chartHeight : ℚ
deriving DecidableEq, Repr

/-- Scaled left edge of a region: `Math.round(x * ratio - halfBarWidth)`. -/
def regionLeftX (r : RegionData) (horizontalPixelRatio : ℚ) : ℚ :=
  jround (r.x * horizontalPixelRatio - r.barWidth * horizontalPixelRatio / 2)

/-- Scaled right edge of a region: `Math.round(x * ratio + halfBarWidth)`. -/
def regionRightX (r : RegionData) (horizontalPixelRatio : ℚ) : ℚ :=
  jround (r.x * horizontalPixelRatio + r.barWidth * horizontalPixelRatio / 2)

/-- The `drawBatch` closure of `_drawImpl`: emits one fill for the
current batch `(currentColor, batchStartX, batchEndX)`, nothing when no
batch has been started. -/
def drawBatchCmds (batch : Option (String × ℚ × ℚ)) (chartHeightScaled : ℚ) : List CanvasCmd :=
  match batch with
  | none => []
  | some (currentColor, batchStartX, batchEndX) =>
    [.setFillStyle currentColor, .fillRect batchStartX 0 (batchEndX - batchStartX) chartHeightScaled]

/-- One iteration of the region loop of `_drawImpl`: extend the current
batch when the region has the same color and is adjacent (its left edge
within half a bar width of the batch end), otherwise flush the batch and
start a new one. -/
def stepRegion (horizontalPixelRatio chartHeightScaled : ℚ)
    (state : Option (String × ℚ × ℚ) × List CanvasCmd) (region : RegionData) :
    Option (String × ℚ × ℚ) × List CanvasCmd :=
  let leftX := regionLeftX region horizontalPixelRatio
  let rightX := regionRightX region horizontalPixelRatio
  let barWidthScaled := region.barWidth * horizontalPixelRatio
  match state.1 with
  | some (currentColor, batchStartX, batchEndX) =>
    if region.color = currentColor ∧ leftX ≤ batchEndX + barWidthScaled * (1 / 2) then
      (some (currentColor, batchStartX, rightX), state.2)
    else
      (some (region.color, leftX, rightX),
       state.2 ++ drawBatchCmds state.1 chartHeightScaled)
  | none =>
    (some (region.color, leftX, rightX),
     state.2 ++ drawBatchCmds state.1 chartHeightScaled)

/-- `BackgroundRegionsRenderer._drawImpl`: run-length batching of
consecutive same-color adjacent regions, one `fillRect` per batch. -/
def drawImpl (data : Option RendererData) (scope : BitmapScope) : List CanvasCmd :=
  match data with
  | none => []
  | some d =>
    if d.regions.length = 0 then []
    else
      let chartHeightScaled := jround (d.chartHeight * scope.verticalPixelRatio)
      let final := d.regions.foldl (stepRegion scope.horizontalPixelRatio chartHeightScaled)
        (none, [])
      final.2 ++ drawBatchCmds final.1 chartHeightScaled

/-- `BackgroundRegionsRenderer.hitTest`: background regions are not
interactive. -/
def hitTest : Option PrimitiveHoveredItem := none

end BackgroundRegions

/-! ## Host chart/series collaborators

The primitives consume the host through narrow interfaces supplied at
attach time; the time values of the host scale are opaque and modelled
as integers. -/

/-- The slice of `ITimeScaleApi` used by the primitives
(`chart.timeScale()`); `width` is `timeScale.width()` and `barSpacing`
is `timeScale.options().barSpacing`. -/
structure TimeScaleApi where
  timeToCoordinate : ℤ → Option ℚ
  coordinateToLogical : ℚ → Option ℚ
  logicalToCoordinate : ℚ → Option ℚ
  width : ℚ
  barSpacing : ℚ

/-- The slice of `ISeriesApi` used by the primitives; `paneHeight` is
`series.getPane().getHeight()` and `formatPrice` is
`series.priceFormatter().format`. -/
structure SeriesApi where
  priceToCoordinate : ℚ → Option ℚ
  paneHeight : ℚ
  formatPrice : ℚ → String

/-! ## Trend line primitive (`plugins/trend-line/primitive`) -/

namespace TrendLine

/-- `TrendLineOptions` from the trend-line options module. -/
structure Options where
  lineColor : String
  lineWidth : ℚ
  lineStyle : LineStyle
  showLabels : Bool
  labelBackgroundColor : String
  labelTextColor : String
  extendToEdges : Bool
  externalId : String
  selected : Bool
  anchorPointColor : String
deriving DecidableEq, Repr

/-- `trendLineOptionsDefaults`. -/
def optionsDefaults : Options :=
  { lineColor := "#f97316"
    lineWidth := 2
    lineStyle := LineStyle.solid
    showLabels := false
    labelBackgroundColor := "rgba(255, 255, 255, 0.85)"
    labelTextColor := "rgb(0, 0, 0)"
    extendToEdges := true
    externalId := ""
    selected := false
    anchorPointColor := "#2962ff"
  }

/-- `DeepPartial<TrendLineOptions>`: each field optionally present. -/
structure PartialOptions where
  lineColor : Option String := none
  lineWidth : Option ℚ := none
  lineStyle : Option LineStyle := none
  showLabels : Option Bool := none
  labelBackgroundColor : Option String := none
  labelTextColor : Option String := none
  extendToEdges : Option Bool := none
  externalId : Option String := none
  selected : Option Bool := none
  anchorPointColor : Option String := none
deriving DecidableEq, Repr

/-- The JS object spread `{ ...full, ...partial }`: every key is
present afterwards, with the partial's value winning when it carries the
key. -/
def spreadOptions (full : Options) (partialOpts : PartialOptions) : PartialOptions :=
  { lineColor := some (partialOpts.lineColor.getD full.lineColor)
    lineWidth := some (partialOpts.lineWidth.getD full.lineWidth)
    lineStyle := some (partialOpts.lineStyle.getD full.lineStyle)
    showLabels := some (partialOpts.showLabels.getD full.showLabels)
    labelBackgroundColor := some (partialOpts.labelBackgroundColor.getD full.labelBackgroundColor)
    labelTextColor := some (partialOpts.labelTextColor.getD full.labelTextColor)
    extendToEdges := some (partialOpts.extendToEdges.getD full.extendToEdges)
    externalId := some (partialOpts.externalId.getD full.externalId)
    selected := some (partialOpts.selected.getD full.selected)
    anchorPointColor := some (partialOpts.anchorPointColor.getD full.anchorPointColor) }

/-- `mergeOptionsWithDefaults`: `{ ...trendLineOptionsDefaults, ...options }`. -/
def mergeOptionsWithDefaults (partialOpts : PartialOptions) : Options :=
  { lineColor := partialOpts.lineColor.getD optionsDefaults.lineColor
    lineWidth := partialOpts.lineWidth.getD optionsDefaults.lineWidth
    lineStyle := partialOpts.lineStyle.getD optionsDefaults.lineStyle
    showLabels := partialOpts.showLabels.getD optionsDefaults.showLabels
    labelBackgroundColor := partialOpts.labelBackgroundColor.getD optionsDefaults.labelBackgroundColor
    labelTextColor := partialOpts.labelTextColor.getD optionsDefaults.labelTextColor
    extendToEdges := partialOpts.extendToEdges.getD optionsDefaults.extendToEdges
    externalId := partialOpts.externalId.getD optionsDefaults.externalId
    selected := partialOpts.selected.getD optionsDefaults.selected
    anchorPointColor := partialOpts.anchorPointColor.getD optionsDefaults.anchorPointColor }

/-- The option transformation of `TrendLine.applyOptions`:
`mergeOptionsWithDefaults({ ...this._options, ...options })`. -/
def applyOptionsMerge (current : Options) (partialOpts : PartialOptions) : Options :=
  mergeOptionsWithDefaults (spreadOptions current partialOpts)

/-- `TrendLinePoint`: a (time, price) anchor. -/
structure Point where
  time : ℤ
  price : ℚ
deriving DecidableEq, Repr

/-- The state of a `TrendLine` primitive instance together with the
`_data` cache of the renderer owned by its pane view (the pane view
itself only forwards snapshots). -/
structure State where
  chart : Option TimeScaleApi
  series : Option SeriesApi
  hasRequestUpdate : Bool
  p1 : Point
  p2 : Point
  options : Options
  snapshot : Option RendererData

/-- `TrendLine.attached`: store the host handles and the update-request
callback (modelled by its presence flag). -/
def attachedStep (timeScale : TimeScaleApi) (series : SeriesApi) (s : State) : State :=
  { s with chart := some timeScale, series := some series, hasRequestUpdate := true }

/-- `TrendLine.detached`: clear all three host references. -/
def detachedStep (s : State) : State :=
  { s with chart := none, series := none, hasRequestUpdate := false }

/-- `TrendLine._calculateRendererData`. -/
def calculateRendererData (s : State) : Option RendererData :=
  match s.chart, s.series with
  | some timeScale, some series =>
    let x1 := timeScale.timeToCoordinate s.p1.time
    let y1 := series.priceToCoordinate s.p1.price
    let x2 := timeScale.timeToCoordinate s.p2.time
    let y2 := series.priceToCoordinate s.p2.price
    let chartWidth := timeScale.width
    let chartHeight := series.paneHeight
    let extendedPoints : NullablePoint × NullablePoint :=
      match s.options.extendToEdges, x1, y1, x2, y2 with
      | true, some cx1, some cy1, some cx2, some cy2 =>
        let extended := calculateExtendedLine cx1 cy1 cx2 cy2 chartWidth chartHeight
        (⟨some extended.x1, some extended.y1⟩, ⟨some extended.x2, some extended.y2⟩)
      | _, _, _, _, _ => (⟨x1, y1⟩, ⟨x2, y2⟩)
    some
      { p1 := ⟨x1, y1⟩
        p2 := ⟨x2, y2⟩
        extendedStart := extendedPoints.1
        extendedEnd := extendedPoints.2
        text1 := series.formatPrice s.p1.price
        text2 := series.formatPrice s.p2.price
        lineColor := s.options.lineColor
        lineWidth := s.options.lineWidth
        lineStyle := s.options.lineStyle
        showLabels := s.options.showLabels
        labelBackgroundColor := s.options.labelBackgroundColor
        labelTextColor := s.options.labelTextColor
        extendToEdges := s.options.extendToEdges
        externalId := s.options.externalId
        chartWidth := chartWidth
        chartHeight := chartHeight
        selected := s.options.selected
        anchorPointColor := s.options.anchorPointColor }
  | _, _ => none

/-- `TrendLine.updateAllViews`: push the recomputed snapshot to the pane
view only when one was produced. -/
def updateAllViews (s : State) : State :=
  match calculateRendererData s with
  | some d => { s with snapshot := some d }
  | none => s

/-- `TrendLine.hitTest`: delegate to the owned renderer with the cached
snapshot. -/
def primitiveHitTest (s : State) (x y : ℚ) : Option PrimitiveHoveredItem :=
  hitTest s.snapshot x y

/-- `TrendLine._getPointLogicalIndex`. -/
def getPointLogicalIndex (s : State) (p : Point) : Option ℚ :=
  match s.chart with
  | none => none
  | some timeScale =>
    match timeScale.timeToCoordinate p.time with
    | none => none
    | some coordinate => timeScale.coordinateToLogical coordinate

/-- `TrendLine.autoscaleInfo`: the contributed price range, or none when
either anchor index is unresolvable or the span misses the visible
range. -/
def autoscaleInfo (s : State) (startTimePoint endTimePoint : ℚ) : Option (ℚ × ℚ) :=
  match getPointLogicalIndex s s.p1, getPointLogicalIndex s s.p2 with
  | some p1Index, some p2Index =>
    let minIndex := min p1Index p2Index
    let maxIndex := max p1Index p2Index
    if endTimePoint < minIndex ∨ maxIndex < startTimePoint then none
    else some (min s.p1.price s.p2.price, max s.p1.price s.p2.price)
  | _, _ => none

/-- `TrendLine.applyOptions` acting on the primitive state. -/
def applyOptionsStep (s : State) (partialOpts : PartialOptions) : State :=
  { s with options := applyOptionsMerge s.options partialOpts }

end TrendLine

/-! ## Rectangle primitive (`plugins/rectangle/primitive`) -/

namespace Rectangle

/-- `RectangleOptions` (the fields consumed by
`_calculateRendererData`). -/
structure Options where
  lineColor : String
  lineWidth : ℚ
  lineStyle : LineStyle
  backgroundColor : String
  labelText : String
  showLabel : Bool
  labelBackgroundColor : String
  labelTextColor : String
  extendMode : ExtendMode
  externalId : String
  selected : Bool
  anchorPointColor : String
  showMiddleLine : Bool
  middleLineColor : String
  middleLineStyle : LineStyle
  middleLineWidth : ℚ
deriving DecidableEq, Repr

/-- `rectangleOptionsDefaults`. -/
def optionsDefaults : Options :=
  { lineColor := "#f97316"
    lineWidth := 2
    lineStyle := LineStyle.solid
    backgroundColor := "rgba(249, 115, 22, 0.2)"
    labelText := ""
    showLabel := false
    labelBackgroundColor := "rgba(255, 255, 255, 0.85)"
    labelTextColor := "rgb(0, 0, 0)"
    extendMode := ExtendMode.right
    externalId := ""
    selected := false
    anchorPointColor := "#2962ff"
    showMiddleLine := false
    middleLineColor := "#f97316"
    middleLineStyle := LineStyle.dashed
    middleLineWidth := 1 }

/-- `RectanglePoint`: a (time, price) anchor. -/
structure Point where
  time : ℤ
  price : ℚ
deriving DecidableEq, Repr

/-- The "Apply extension mode" switch of
`Rectangle._calculateRendererData` (drawLeft/drawRight from the corner
x extremes and the chart width, drawTop/drawBottom always the y
extremes). -/
def computeDrawBounds (x1 y1 x2 y2 chartWidth : ℚ) (extendMode : ExtendMode) : ℚ × ℚ × ℚ × ℚ :=
  let minX := min x1 x2
  let maxX := max x1 x2
  let minY := min y1 y2
  let maxY := max y1 y2
  let horizontal : ℚ × ℚ :=
    match extendMode with
    | ExtendMode.left => (0, maxX)
    | ExtendMode.right => (minX, chartWidth)
    | ExtendMode.both => (0, chartWidth)
    | ExtendMode.none => (minX, maxX)
  (horizontal.1, horizontal.2, minY, maxY)

/-- The state of a `Rectangle` primitive instance. -/
structure State where
  chart : Option TimeScaleApi
  series : Option SeriesApi
  hasRequestUpdate : Bool
  p1 : Point
  p2 : Point
  options : Options

/-- `Rectangle._calculateRendererData`. -/
def calculateRendererData (s : State) : Option RendererData :=
  match s.chart, s.series with
  | some timeScale, some series =>
    let x1 := timeScale.timeToCoordinate s.p1.time
    let y1 := series.priceToCoordinate s.p1.price
    let x2 := timeScale.timeToCoordinate s.p2.time
    let y2 := series.priceToCoordinate s.p2.price
    let chartWidth := timeScale.width
    let chartHeight := series.paneHeight
    match x1, y1, x2, y2 with
    | some cx1, some cy1, some cx2, some cy2 =>
      let bounds := computeDrawBounds cx1 cy1 cx2 cy2 chartWidth s.options.extendMode
      some
        { p1 := ⟨x1, y1⟩
          p2 := ⟨x2, y2⟩
          drawLeft := bounds.1
          drawRight := bounds.2.1
          drawTop := bounds.2.2.1
          drawBottom := bounds.2.2.2
          lineColor := s.options.lineColor
          lineWidth := s.options.lineWidth
          lineStyle := s.options.lineStyle
          backgroundColor := s.options.backgroundColor
          labelText := s.options.labelText
          showLabel := s.options.showLabel
          labelBackgroundColor := s.options.labelBackgroundColor
          labelTextColor := s.options.labelTextColor
          extendMode := s.options.extendMode
          externalId := s.options.externalId
          chartWidth := chartWidth
          chartHeight := chartHeight
          selected := s.options.selected
          anchorPointColor := s.options.anchorPointColor
          showMiddleLine := s.options.showMiddleLine
          middleLineColor := s.options.middleLineColor
          middleLineStyle := s.options.middleLineStyle
          middleLineWidth := s.options.middleLineWidth }
    | _, _, _, _ => none
  | _, _ => none

end Rectangle

/-! ## Background regions primitive (`plugins/background-regions/primitive`) -/

namespace BackgroundRegions

/-- `BackgroundRegionData`: one (time, color) data point. -/
structure RegionPoint where
  time : ℤ
  color : String
deriving DecidableEq, Repr

/-- `BackgroundRegionsOptions`. -/
structure Options where
  externalId : String
deriving DecidableEq, Repr

/-- The state of a `BackgroundRegions` primitive instance together with
the `_data` cache of its renderer. -/
structure State where
  chart : Option TimeScaleApi
  series : Option SeriesApi
  hasRequestUpdate : Bool
  data : List RegionPoint
  options : Options
  snapshot : Option RendererData

/-- `BackgroundRegions.attached`. -/
def attachedStep (timeScale : TimeScaleApi) (series : SeriesApi) (s : State) : State :=
  { s with chart := some timeScale, series := some series, hasRequestUpdate := true }

/-- `BackgroundRegions.detached`. -/
def detachedStep (s : State) : State :=
  { s with chart := none, series := none, hasRequestUpdate := false }

/-- `BackgroundRegions._calculateRendererData`: maps every data point to
a region at its projected x coordinate (skipping unmappable times), all
with the current bar spacing as width; detached or empty data yields the
empty snapshot `{ regions: [], chartHeight: 0 }`. -/
def calculateRendererData (s : State) : RendererData :=
  match s.chart, s.series with
  | some timeScale, some series =>
    if s.data.length = 0 then { regions := [], chartHeight := 0 }
    else
      { regions :=
          s.data.filterMap (fun point =>
            match timeScale.timeToCoordinate point.time with
            | none => none
            | some x => some { x := x, color := point.color, barWidth := timeScale.barSpacing })
        chartHeight := series.paneHeight }
  | _, _ => { regions := [], chartHeight := 0 }

/-- `BackgroundRegions.updateAllViews`: always pushes the recomputed
snapshot (unconditionally, unlike the other primitives). -/
def updateAllViews (s : State) : State :=
  { s with snapshot := some (calculateRendererData s) }

end BackgroundRegions

end LWC

/-! ## Concrete sample data used by the witnesses and counterexamples -/

namespace LWC

/-- A rendering scope with unit pixel ratios and trivial host text
metrics. -/
def unitScope : BitmapScope :=
  { horizontalPixelRatio := 1
    verticalPixelRatio := 1
    measureText := fun _ => 0
    toFixed2 := fun _ => "" }

/-- A selected trend-line snapshot: anchors (0,0) and (10,0) in a
100×50 chart, extension enabled. -/
def trendSelectedSample : TrendLine.RendererData :=
  { p1 := ⟨some 0, some 0⟩
    p2 := ⟨some 10, some 0⟩
    extendedStart := ⟨some 0, some 0⟩
    extendedEnd := ⟨some 100, some 0⟩
    text1 := ""
    text2 := ""
    lineColor := "#f97316"
    lineWidth := 2
    lineStyle := LineStyle.solid
    showLabels := false
    labelBackgroundColor := ""
    labelTextColor := ""
    extendToEdges := true
    externalId := "tl"
    chartWidth := 100
    chartHeight := 50
    selected := true
    anchorPointColor := "#2962ff" }

/-- A selected rectangle snapshot with corners (20,30) and (80,90). -/
def rectSelectedSample : Rectangle.RendererData :=
  { p1 := ⟨some 20, some 30⟩
    p2 := ⟨some 80, some 90⟩
    drawLeft := 20
    drawRight := 80
    drawTop := 30
    drawBottom := 90
    lineColor := "#f97316"
    lineWidth := 2
    lineStyle := LineStyle.solid
    backgroundColor := ""
    labelText := ""
    showLabel := false
    labelBackgroundColor := ""
    labelTextColor := ""
    extendMode := Rectangle.ExtendMode.none
    externalId := "rect"
    chartWidth := 200
    chartHeight := 100
    selected := true
    anchorPointColor := ""
    showMiddleLine := false
    middleLineColor := ""
    middleLineStyle := LineStyle.dashed
    middleLineWidth := 1 }

/-- A selected long-position snapshot: entry (10,50), target y 20,
stop y 70, right edge x 110. -/
def longPositionSelectedSample : LongPosition.RendererData :=
  { entry := ⟨some 10, some 50⟩
    targetY := some 20
    stopY := some 70
    rightX := some 110
    entryPrice := 100
    targetPrice := 120
    stopPrice := 90
    lineColor := "#ffffff"
    lineWidth := 1
    lineStyle := LineStyle.solid
    profitBackgroundColor := ""
    riskBackgroundColor := ""
    entryLineColor := ""
    externalId := "lp"
    chartWidth := 200
    chartHeight := 100
    selected := true
    anchorPointColor := ""
    labelBackgroundColor := ""
    labelTextColor := ""
    targetLabelBackgroundColor := ""
    stopLabelBackgroundColor := ""
    direction := LongPosition.PositionDirection.long }

/-- A selected horizontal-line snapshot at y 100 in a chart of width
200 (anchor handle at x 150). -/
def hlineSelectedSample : HorizontalLine.RendererData :=
  HorizontalLine.rendererDataOf
    { HorizontalLine.optionsDefaults with selected := true, externalId := "hl" }
    (some 100) 200

/-- A non-selected vertical-line snapshot at x 80, pane height 100. -/
def vlineSample : VerticalLine.RendererData :=
  { x := some 80
    timeLabel := ""
    lineColor := "#f97316"
    lineWidth := 1
    lineStyle := LineStyle.solid
    showTimeLabel := false
    labelBackgroundColor := ""
    labelTextColor := ""
    externalId := "vl"
    chartWidth := 200
    chartHeight := 100
    selected := false
    anchorPointColor := ""
    anchorOffsetFromBottom := 30 }

/-- The selected variant of `vlineSample` (anchor handle at (80,70)). -/
def vlineSelectedSample : VerticalLine.RendererData :=
  { vlineSample with selected := true }

/-- A time scale mapping time 1 to x=20 and time 2 to x=80, of width
200. -/
def rectTimeScaleSample : TimeScaleApi :=
  { timeToCoordinate := fun t => if t = 1 then some 20 else if t = 2 then some 80 else none
    coordinateToLogical := fun c => some c
    logicalToCoordinate := fun l => some l
    width := 200
    barSpacing := 10 }

/-- A series mapping every price to itself, pane height 100. -/
def seriesSample : SeriesApi :=
  { priceToCoordinate := fun p => some p, paneHeight := 100, formatPrice := fun _ => "" }

/-- An attached rectangle state with corners at times 1 and 2 (x=20 and
x=80) and the given extend mode. -/
def rectStateWith (mode : Rectangle.ExtendMode) : Rectangle.State :=
  { chart := some rectTimeScaleSample
    series := some seriesSample
    hasRequestUpdate := true
    p1 := ⟨1, 30⟩
    p2 := ⟨2, 90⟩
    options := { Rectangle.optionsDefaults with extendMode := mode } }

/-- A detached background-regions state that still retains a non-empty
last-good snapshot. -/
def bgDetachedSample : BackgroundRegions.State :=
  { chart := none
    series := none
    hasRequestUpdate := false
    data := [⟨0, "A"⟩]
    options := ⟨""⟩
    snapshot := some ⟨[⟨10, "A", 10⟩], 50⟩ }

/-- A detached trend-line state that still retains a last-good snapshot
of a horizontal segment at y 100. -/
def trendDetachedSample : TrendLine.State :=
  { chart := none
    series := none
    hasRequestUpdate := false
    p1 := ⟨0, 100⟩
    p2 := ⟨1, 100⟩
    options := TrendLine.optionsDefaults
    snapshot := some
      { p1 := ⟨some 0, some 100⟩
        p2 := ⟨some 100, some 100⟩
        extendedStart := ⟨some 0, some 100⟩
        extendedEnd := ⟨some 100, some 100⟩
        text1 := ""
        text2 := ""
        lineColor := ""
        lineWidth := 2
        lineStyle := LineStyle.solid
        showLabels := false
        labelBackgroundColor := ""
        labelTextColor := ""
        extendToEdges := false
        externalId := "tl"
        chartWidth := 200
        chartHeight := 200
        selected := false
        anchorPointColor := "" } }

/-- A time scale mapping time 0 to x=0 and time 1 to x=10, of width
100. -/
def hostTimeScaleSample : TimeScaleApi :=
  { timeToCoordinate := fun t => if t = 0 then some 0 else if t = 1 then some 10 else none
    coordinateToLogical := fun c => some c
    logicalToCoordinate := fun l => some l
    width := 100
    barSpacing := 10 }

/-- A series mapping every price to itself, pane height 50, formatting
every price as "p". -/
def hostSeriesSample : SeriesApi :=
  { priceToCoordinate := fun p => some p
    paneHeight := 50
    formatPrice := fun _ => "p" }

/-- The snapshot `trendDetachedSample` recomputes after being
re-attached to `hostTimeScaleSample`/`hostSeriesSample`. -/
def trendLiveSnapshotSample : TrendLine.RendererData :=
  { p1 := ⟨some 0, some 100⟩
    p2 := ⟨some 10, some 100⟩
    extendedStart := ⟨some 0, some 100⟩
    extendedEnd := ⟨some 100, some 100⟩
    text1 := "p"
    text2 := "p"
    lineColor := "#f97316"
    lineWidth := 2
    lineStyle := LineStyle.solid
    showLabels := false
    labelBackgroundColor := "rgba(255, 255, 255, 0.85)"
    labelTextColor := "rgb(0, 0, 0)"
    extendToEdges := true
    externalId := ""
    chartWidth := 100
    chartHeight := 50
    selected := false
    anchorPointColor := "#2962ff" }

/-- A horizontal-line snapshot whose y coordinate is null. -/
def hlineNullSample : HorizontalLine.RendererData :=
  HorizontalLine.rendererDataOf HorizontalLine.optionsDefaults none 200

/-- A vertical-line snapshot whose x coordinate is null. -/
def vlineNullSample : VerticalLine.RendererData :=
  { vlineSample with x := (none : Option ℚ) }

/-- A horizontal-ray snapshot whose anchor x coordinate is null. -/
def rayNullSample : HorizontalRay.RendererData :=
  { anchor := ⟨none, some 5⟩
    endPoint := ⟨some 100, some 5⟩
    priceLabel := ""
    lineColor := ""
    lineWidth := 1
    lineStyle := LineStyle.solid
    showPriceLabel := false
    labelBackgroundColor := ""
    labelTextColor := ""
    externalId := "ray"
    chartWidth := 200
    chartHeight := 100
    selected := false
    anchorPointColor := "" }

/-- A trend-line snapshot with extension enabled whose extended end is
null. -/
def trendNullSample : TrendLine.RendererData :=
  { trendSelectedSample with extendedEnd := ⟨none, none⟩ }

/-- A long-position snapshot whose right-edge x coordinate is null. -/
def longPositionNullSample : LongPosition.RendererData :=
  { longPositionSelectedSample with rightX := (none : Option ℚ) }

end LWC

/-! ## Helper lemmas -/

namespace LWC

theorem jabs_eq_abs (q : ℚ) : jabs q = |q| := by
  unfold jabs
  rcases lt_or_le q 0 with h | h
  · rw [if_pos h, abs_of_neg h]
  · rw [if_neg (not_lt.mpr h), abs_of_nonneg h]

theorem argmaxFold_spec (f : ℚ × ℚ → ℚ) (L : List (ℚ × ℚ)) :
    ∀ z : (ℚ × ℚ) × ℚ,
      (TrendLine.argmaxFold f z L = z ∨
        ((TrendLine.argmaxFold f z L).1 ∈ L ∧
          (TrendLine.argmaxFold f z L).2 = f (TrendLine.argmaxFold f z L).1)) ∧
      z.2 ≤ (TrendLine.argmaxFold f z L).2 ∧
      ∀ p ∈ L, f p ≤ (TrendLine.argmaxFold f z L).2 := by
  induction L with
  | nil =>
    intro z
    refine ⟨Or.inl rfl, le_refl _, ?_⟩
    intro p hp
    simp at hp
  | cons q t ih =>
    intro z
    have hstep : TrendLine.argmaxFold f z (q :: t) =
        TrendLine.argmaxFold f (if z.2 < f q then (q, f q) else z) t := by
      simp only [TrendLine.argmaxFold, List.foldl_cons]
    by_cases hq : z.2 < f q
    · rw [if_pos hq] at hstep
      obtain ⟨hmem, hle, hall⟩ := ih (q, f q)
      refine ⟨?_, ?_, ?_⟩
      · rcases hmem with h1 | h1
        · right
          rw [hstep, h1]
          exact ⟨List.mem_cons_self q t, rfl⟩
        · right
          rw [hstep]
          exact ⟨List.mem_cons_of_mem q h1.1, h1.2⟩
      · rw [hstep]
        exact le_trans (le_of_lt hq) hle
      · intro p hp
        rw [hstep]
        rcases List.mem_cons.mp hp with rfl | hp'
        · exact hle
        · exact hall p hp'
    · rw [if_neg hq] at hstep
      obtain ⟨hmem, hle, hall⟩ := ih z
      refine ⟨?_, ?_, ?_⟩
      · rcases hmem with h1 | h1
        · left
          rw [hstep, h1]
        · right
          rw [hstep]
          exact ⟨List.mem_cons_of_mem q h1.1, h1.2⟩
      · rw [hstep]
        exact hle
      · intro p hp
        rw [hstep]
        rcases List.mem_cons.mp hp with rfl | hp'
        · exact le_trans (not_lt.mp hq) hle
        · exact hall p hp'

theorem directionalIntersections_distSq_pos {x1 y1 x2 y2 W H : ℚ} {p : ℚ × ℚ}
    (hp : p ∈ TrendLine.directionalIntersections x1 y1 x2 y2 W H) :
    0 < distSq x1 y1 p.1 p.2 := by
  have hdot : 0 < (p.1 - x1) * (x2 - x1) + (p.2 - y1) * (y2 - y1) := by
    have h := (List.mem_filter.mp hp).2
    simpa using h
  rcases lt_or_eq_of_le (show (0 : ℚ) ≤ distSq x1 y1 p.1 p.2 by unfold distSq; positivity)
    with h | h
  · exact h
  · exfalso
    have hd : (p.1 - x1) ^ 2 + (p.2 - y1) ^ 2 = 0 := by
      unfold distSq at h
      linarith
    have ha : p.1 - x1 = 0 := by
      have h2 : (p.1 - x1) ^ 2 = 0 := by nlinarith [sq_nonneg (p.2 - y1)]
      exact pow_eq_zero_iff (by norm_num) |>.mp h2
    have hb : p.2 - y1 = 0 := by
      have h2 : (p.2 - y1) ^ 2 = 0 := by nlinarith [sq_nonneg (p.1 - x1)]
      exact pow_eq_zero_iff (by norm_num) |>.mp h2
    rw [ha, hb] at hdot
    simp at hdot

theorem furthestFrom_spec (x1 y1 : ℚ) (dflt : ℚ × ℚ) (L : List (ℚ × ℚ))
    (hpos : ∀ p ∈ L, 0 < distSq x1 y1 p.1 p.2) :
    (L = [] → TrendLine.furthestFrom x1 y1 dflt L = dflt) ∧
    (L ≠ [] → TrendLine.furthestFrom x1 y1 dflt L ∈ L ∧
      ∀ p ∈ L, distSq x1 y1 p.1 p.2 ≤
        distSq x1 y1 (TrendLine.furthestFrom x1 y1 dflt L).1
          (TrendLine.furthestFrom x1 y1 dflt L).2) := by
  obtain ⟨hmem, hle0, hall⟩ := argmaxFold_spec (fun p => distSq x1 y1 p.1 p.2) L (dflt, 0)
  constructor
  · intro h
    subst h
    rfl
  · intro hne
    rcases hmem with h1 | h1
    · exfalso
      obtain ⟨p0, hp0⟩ := List.exists_mem_of_ne_nil L hne
      have h2 := hall p0 hp0
      rw [h1] at h2
      exact absurd h2 (not_le.mpr (hpos p0 hp0))
    · refine ⟨h1.1, ?_⟩
      intro p hp
      have h2 := hall p hp
      rw [h1.2] at h2
      exact h2

end LWC

/-! ## Claim theorems -/

namespace LWC

/-- C1 (amended): the extended trend line always starts at anchor p1.
In the general branch (both `|dx|` and `|dy|` at least the 0.0001
degeneracy threshold), the endpoint is the chart-boundary intersection
of maximum distance from p1 among those whose displacement from p1 has
a positive dot product with the direction vector `(p2 − p1)`, falling
back to p2 itself when no such intersection exists.  In the degenerate
vertical (resp. horizontal) branch, the endpoint is placed on the
bottom/top (resp. right/left) chart edge according to the sign of the
direction, without the positive-dot-product filter, so it can lie
behind p1 when the anchor is outside the chart.  In particular, for
anchors (0,0) and (10,0) in a 100×50 chart the extended endpoint is
(100, 0). -/
theorem trendLine_extension_spec :
    (∀ x1 y1 x2 y2 chartWidth chartHeight : ℚ,
      (TrendLine.calculateExtendedLine x1 y1 x2 y2 chartWidth chartHeight).x1 = x1 ∧
      (TrendLine.calculateExtendedLine x1 y1 x2 y2 chartWidth chartHeight).y1 = y1) ∧
    TrendLine.calculateExtendedLine 0 0 10 0 100 50 = ⟨0, 0, 100, 0⟩ ∧
    (∀ x1 y1 x2 y2 chartWidth chartHeight : ℚ,
      ¬ jabs (x2 - x1) < 1 / 10000 → ¬ jabs (y2 - y1) < 1 / 10000 →
      (TrendLine.directionalIntersections x1 y1 x2 y2 chartWidth chartHeight = [] →
        (TrendLine.calculateExtendedLine x1 y1 x2 y2 chartWidth chartHeight).x2 = x2 ∧
        (TrendLine.calculateExtendedLine x1 y1 x2 y2 chartWidth chartHeight).y2 = y2) ∧
      (TrendLine.directionalIntersections x1 y1 x2 y2 chartWidth chartHeight ≠ [] →
        ((TrendLine.calculateExtendedLine x1 y1 x2 y2 chartWidth chartHeight).x2,
          (TrendLine.calculateExtendedLine x1 y1 x2 y2 chartWidth chartHeight).y2) ∈
            TrendLine.directionalIntersections x1 y1 x2 y2 chartWidth chartHeight ∧
        ∀ p ∈ TrendLine.directionalIntersections x1 y1 x2 y2 chartWidth chartHeight,
          distSq x1 y1 p.1 p.2 ≤
            distSq x1 y1
              (TrendLine.calculateExtendedLine x1 y1 x2 y2 chartWidth chartHeight).x2
              (TrendLine.calculateExtendedLine x1 y1 x2 y2 chartWidth chartHeight).y2)) ∧
    (∀ x1 y1 x2 y2 chartWidth chartHeight : ℚ,
      jabs (x2 - x1) < 1 / 10000 →
      (TrendLine.calculateExtendedLine x1 y1 x2 y2 chartWidth chartHeight).x2 = x1 ∧
      (TrendLine.calculateExtendedLine x1 y1 x2 y2 chartWidth chartHeight).y2 =
        (if 0 < y2 - y1 then chartHeight else 0)) ∧
    (∀ x1 y1 x2 y2 chartWidth chartHeight : ℚ,
      ¬ jabs (x2 - x1) < 1 / 10000 → jabs (y2 - y1) < 1 / 10000 →
      (TrendLine.calculateExtendedLine x1 y1 x2 y2 chartWidth chartHeight).x2 =
        (if 0 < x2 - x1 then chartWidth else 0) ∧
      (TrendLine.calculateExtendedLine x1 y1 x2 y2 chartWidth chartHeight).y2 = y1) := by
  refine ⟨?_, ?_, ?_, ?_, ?_⟩
  · intro x1 y1 x2 y2 W H
    constructor <;> (simp only [TrendLine.calculateExtendedLine]; split_ifs <;> rfl)
  · norm_num [TrendLine.calculateExtendedLine, jabs]
  · intro x1 y1 x2 y2 W H hdx hdy
    have he : TrendLine.calculateExtendedLine x1 y1 x2 y2 W H =
        ⟨x1, y1,
          (TrendLine.furthestFrom x1 y1 (x2, y2)
            (TrendLine.directionalIntersections x1 y1 x2 y2 W H)).1,
          (TrendLine.furthestFrom x1 y1 (x2, y2)
            (TrendLine.directionalIntersections x1 y1 x2 y2 W H)).2⟩ := by
      simp only [TrendLine.calculateExtendedLine]
      rw [if_neg hdx, if_neg hdy]
    have hspec := furthestFrom_spec x1 y1 (x2, y2)
      (TrendLine.directionalIntersections x1 y1 x2 y2 W H)
      (fun p hp => directionalIntersections_distSq_pos hp)
    constructor
    · intro hempty
      have h1 := hspec.1 hempty
      rw [he]
      simp [h1]
    · intro hne
      obtain ⟨hmem, hmax⟩ := hspec.2 hne
      constructor
      · rw [he]
        exact hmem
      · intro p hp
        have h2 := hmax p hp
        rw [he]
        exact h2
  · intro x1 y1 x2 y2 W H h
    constructor <;>
      (simp only [TrendLine.calculateExtendedLine]; rw [if_pos h]; split_ifs <;> rfl)
  · intro x1 y1 x2 y2 W H hdx hdy
    constructor <;>
      (simp only [TrendLine.calculateExtendedLine]; rw [if_neg hdx, if_pos hdy];
        split_ifs <;> rfl)

/-- C1 witness: the diagonal segment (0,0)→(10,10) in a 100×50 chart is
non-degenerate, has a directional boundary intersection, and the
computed endpoint is one of them. -/
theorem trendLine_extension_spec_witness :
    (¬ jabs ((10 : ℚ) - 0) < 1 / 10000) ∧
    TrendLine.directionalIntersections 0 0 10 10 100 50 ≠ [] ∧
    ((TrendLine.calculateExtendedLine 0 0 10 10 100 50).x2,
      (TrendLine.calculateExtendedLine 0 0 10 10 100 50).y2) ∈
      TrendLine.directionalIntersections 0 0 10 10 100 50 := by
  have h1 : ¬ jabs ((10 : ℚ) - 0) < 1 / 10000 := by norm_num [jabs]
  have h3 : TrendLine.directionalIntersections 0 0 10 10 100 50 ≠ [] := by
    norm_num [TrendLine.directionalIntersections, TrendLine.edgeIntersections]
  exact ⟨h1, h3, ((trendLine_extension_spec.2.2.1 0 0 10 10 100 50 h1 h1).2 h3).1⟩

/-- C1 counterexample: the vertical segment (5,60)→(5,70) in a 100×50
chart is extended to the bottom edge at (5,50), whose displacement from
p1 has a strictly negative dot product with the direction vector — the
line is extended backward behind p1, so the claimed endpoint rule
("chosen only among intersections with positive dot product, never
backward") fails as stated. -/
theorem trendLine_extension_backward_cex :
    TrendLine.calculateExtendedLine 5 60 5 70 100 50 = ⟨5, 60, 5, 50⟩ ∧
    ((TrendLine.calculateExtendedLine 5 60 5 70 100 50).x2 - 5) * ((5 : ℚ) - 5) +
      ((TrendLine.calculateExtendedLine 5 60 5 70 100 50).y2 - 60) * ((70 : ℚ) - 60) < 0 := by
  constructor
  · norm_num [TrendLine.calculateExtendedLine, jabs]
  · norm_num [TrendLine.calculateExtendedLine, jabs]

/-- C2 counterexample: a selected trend-line snapshot queried exactly at
its first anchor (0,0) — a point within the 8 px anchor hit radius of
handle 0 — returns the bare external id "tl" rather than the anchor
identifier "tl:anchor:0": the trend-line renderer performs no
anchor-handle check at all, so anchor priority does not apply uniformly
to every annotation type. -/
theorem anchor_priority_trendLine_cex :
    trendSelectedSample.selected = true ∧
    trendSelectedSample.p1 = ⟨some 0, some 0⟩ ∧
    distSq 0 0 0 0 ≤ ANCHOR_HIT_RADIUS ^ 2 ∧
    TrendLine.hitTest (some trendSelectedSample) 0 0 = some ⟨"pointer", "tl", "normal"⟩ ∧
    "tl" ≠ "tl" ++ ":anchor:" ++ toString 0 := by
  refine ⟨rfl, rfl, ?_, ?_, ?_⟩
  · norm_num [distSq, ANCHOR_HIT_RADIUS]
  · norm_num [TrendLine.hitTest, trendSelectedSample, distSqToSegment, distSq,
      HIT_TEST_TOLERANCE]
  · decide

/-- C2 (amended): for the rectangle, long-position, horizontal-line and
vertical-line renderers, when the snapshot is selected, the anchor
handles are checked before the body in index order: a query point
within the 8 px anchor hit radius of handle k — and outside the radius
of every earlier handle — returns a hit whose identifier is the
external id suffixed with ":anchor:k", even when the point also lies
within the body's hit tolerance.  The trend-line renderer performs no
anchor check: every hit it reports carries the bare external id. -/
theorem anchor_priority_spec :
    (∀ (d : Rectangle.RendererData) (x y p1x p1y : ℚ),
      d.selected = true → d.p1 = ⟨some p1x, some p1y⟩ →
      distSq x y p1x p1y ≤ ANCHOR_HIT_RADIUS ^ 2 →
      Rectangle.hitTest (some d) x y =
        some ⟨"grab", d.externalId ++ ":anchor:0", "normal"⟩) ∧
    (∀ (d : Rectangle.RendererData) (x y p1x p1y p2x p2y : ℚ),
      d.selected = true → d.p1 = ⟨some p1x, some p1y⟩ → d.p2 = ⟨some p2x, some p2y⟩ →
      ¬ distSq x y p1x p1y ≤ ANCHOR_HIT_RADIUS ^ 2 →
      distSq x y p2x p2y ≤ ANCHOR_HIT_RADIUS ^ 2 →
      Rectangle.hitTest (some d) x y =
        some ⟨"grab", d.externalId ++ ":anchor:1", "normal"⟩) ∧
    (∀ (d : LongPosition.RendererData) (x y entryX entryY targetY stopY rightX : ℚ),
      d.selected = true → d.entry = ⟨some entryX, some entryY⟩ →
      d.targetY = some targetY → d.stopY = some stopY → d.rightX = some rightX →
      distSq x y entryX entryY ≤ ANCHOR_HIT_RADIUS ^ 2 →
      LongPosition.hitTest (some d) x y =
        some ⟨"grab", d.externalId ++ ":anchor:0", "normal"⟩) ∧
    (∀ (d : LongPosition.RendererData) (x y entryX entryY targetY stopY rightX : ℚ),
      d.selected = true → d.entry = ⟨some entryX, some entryY⟩ →
      d.targetY = some targetY → d.stopY = some stopY → d.rightX = some rightX →
      ¬ distSq x y entryX entryY ≤ ANCHOR_HIT_RADIUS ^ 2 →
      distSq x y entryX targetY ≤ ANCHOR_HIT_RADIUS ^ 2 →
      LongPosition.hitTest (some d) x y =
        some ⟨"ns-resize", d.externalId ++ ":anchor:1", "normal"⟩) ∧
    (∀ (d : LongPosition.RendererData) (x y entryX entryY targetY stopY rightX : ℚ),
      d.selected = true → d.entry = ⟨some entryX, some entryY⟩ →
      d.targetY = some targetY → d.stopY = some stopY → d.rightX = some rightX →
      ¬ distSq x y entryX entryY ≤ ANCHOR_HIT_RADIUS ^ 2 →
      ¬ distSq x y entryX targetY ≤ ANCHOR_HIT_RADIUS ^ 2 →
      distSq x y entryX stopY ≤ ANCHOR_HIT_RADIUS ^ 2 →
      LongPosition.hitTest (some d) x y =
        some ⟨"ns-resize", d.externalId ++ ":anchor:2", "normal"⟩) ∧
    (∀ (d : LongPosition.RendererData) (x y entryX entryY targetY stopY rightX : ℚ),
      d.selected = true → d.entry = ⟨some entryX, some entryY⟩ →
      d.targetY = some targetY → d.stopY = some stopY → d.rightX = some rightX →
      ¬ distSq x y entryX entryY ≤ ANCHOR_HIT_RADIUS ^ 2 →
      ¬ distSq x y entryX targetY ≤ ANCHOR_HIT_RADIUS ^ 2 →
      ¬ distSq x y entryX stopY ≤ ANCHOR_HIT_RADIUS ^ 2 →
      distSq x y rightX entryY ≤ ANCHOR_HIT_RADIUS ^ 2 →
      LongPosition.hitTest (some d) x y =
        some ⟨"ew-resize", d.externalId ++ ":anchor:3", "normal"⟩) ∧
    (∀ (d : HorizontalLine.RendererData) (x y lineY : ℚ),
      d.selected = true → d.y = some lineY →
      distSq x y (d.chartWidth - d.anchorOffsetFromRight) lineY ≤ ANCHOR_HIT_RADIUS ^ 2 →
      HorizontalLine.hitTest (some d) x y =
        some ⟨"grab", d.externalId ++ ":anchor:0", "normal"⟩) ∧
    (∀ (d : VerticalLine.RendererData) (x y lineX : ℚ),
      d.selected = true → d.x = some lineX →
      distSq x y lineX (d.chartHeight - d.anchorOffsetFromBottom) ≤ ANCHOR_HIT_RADIUS ^ 2 →
      VerticalLine.hitTest (some d) x y =
        some ⟨"grab", d.externalId ++ ":anchor:0", "normal"⟩) ∧
    (∀ (d : TrendLine.RendererData) (x y : ℚ) (r : PrimitiveHoveredItem),
      TrendLine.hitTest (some d) x y = some r → r.externalId = d.externalId) := by
  refine ⟨?_, ?_, ?_, ?_, ?_, ?_, ?_, ?_, ?_⟩
  · intro d x y p1x p1y hsel hp1 hdist
    simp [Rectangle.hitTest, Rectangle.hitTestAnchorPoints, hsel, hp1, hdist]
  · intro d x y p1x p1y p2x p2y hsel hp1 hp2 hmiss1 hdist2
    simp [Rectangle.hitTest, Rectangle.hitTestAnchorPoints, hsel, hp1, hp2, hmiss1, hdist2]
  · intro d x y entryX entryY targetY stopY rightX hsel hentry htY hsY hrX hdist
    simp [LongPosition.hitTest, LongPosition.hitTestAnchorPoints, hsel, hentry, htY, hsY,
      hrX, hdist]
  · intro d x y entryX entryY targetY stopY rightX hsel hentry htY hsY hrX hmiss0 hdist1
    simp [LongPosition.hitTest, LongPosition.hitTestAnchorPoints, hsel, hentry, htY, hsY,
      hrX, hmiss0, hdist1]
  · intro d x y entryX entryY targetY stopY rightX hsel hentry htY hsY hrX hmiss0 hmiss1
      hdist2
    simp [LongPosition.hitTest, LongPosition.hitTestAnchorPoints, hsel, hentry, htY, hsY,
      hrX, hmiss0, hmiss1, hdist2]
  · intro d x y entryX entryY targetY stopY rightX hsel hentry htY hsY hrX hmiss0 hmiss1
      hmiss2 hdist3
    simp [LongPosition.hitTest, LongPosition.hitTestAnchorPoints, hsel, hentry, htY, hsY,
      hrX, hmiss0, hmiss1, hmiss2, hdist3]
  · intro d x y lineY hsel hy hdist
    simp [HorizontalLine.hitTest, HorizontalLine.hitTestAnchorPoint, hsel, hy, hdist]
  · intro d x y lineX hsel hx hdist
    simp [VerticalLine.hitTest, VerticalLine.hitTestAnchorPoint, hsel, hx, hdist]
  · intro d x y r h
    simp only [TrendLine.hitTest] at h
    repeat' split at h
    all_goals
      first
      | (cases h; rfl)
      | simp_all

/-- C2 witness: anchor hits on concrete selected snapshots of every
type with anchor handles, ending with the trend line's bare id. -/
theorem anchor_priority_spec_witness :
    Rectangle.hitTest (some rectSelectedSample) 22 31 =
      some ⟨"grab", rectSelectedSample.externalId ++ ":anchor:0", "normal"⟩ ∧
    Rectangle.hitTest (some rectSelectedSample) 80 90 =
      some ⟨"grab", rectSelectedSample.externalId ++ ":anchor:1", "normal"⟩ ∧
    LongPosition.hitTest (some longPositionSelectedSample) 10 50 =
      some ⟨"grab", longPositionSelectedSample.externalId ++ ":anchor:0", "normal"⟩ ∧
    LongPosition.hitTest (some longPositionSelectedSample) 10 20 =
      some ⟨"ns-resize", longPositionSelectedSample.externalId ++ ":anchor:1", "normal"⟩ ∧
    LongPosition.hitTest (some longPositionSelectedSample) 10 70 =
      some ⟨"ns-resize", longPositionSelectedSample.externalId ++ ":anchor:2", "normal"⟩ ∧
    LongPosition.hitTest (some longPositionSelectedSample) 110 50 =
      some ⟨"ew-resize", longPositionSelectedSample.externalId ++ ":anchor:3", "normal"⟩ ∧
    HorizontalLine.hitTest (some hlineSelectedSample) 150 100 =
      some ⟨"grab", hlineSelectedSample.externalId ++ ":anchor:0", "normal"⟩ ∧
    VerticalLine.hitTest (some vlineSelectedSample) 80 70 =
      some ⟨"grab", vlineSelectedSample.externalId ++ ":anchor:0", "normal"⟩ ∧
    (⟨"pointer", "tl", "normal"⟩ : PrimitiveHoveredItem).externalId =
      trendSelectedSample.externalId := by
  refine ⟨?_, ?_, ?_, ?_, ?_, ?_, ?_, ?_, ?_⟩
  · exact anchor_priority_spec.1 rectSelectedSample 22 31 20 30 rfl rfl
      (by norm_num [distSq, ANCHOR_HIT_RADIUS])
  · exact anchor_priority_spec.2.1 rectSelectedSample 80 90 20 30 80 90 rfl rfl rfl
      (by norm_num [distSq, ANCHOR_HIT_RADIUS]) (by norm_num [distSq, ANCHOR_HIT_RADIUS])
  · exact anchor_priority_spec.2.2.1 longPositionSelectedSample 10 50 10 50 20 70 110
      rfl rfl rfl rfl rfl (by norm_num [distSq, ANCHOR_HIT_RADIUS])
  · exact anchor_priority_spec.2.2.2.1 longPositionSelectedSample 10 20 10 50 20 70 110
      rfl rfl rfl rfl rfl (by norm_num [distSq, ANCHOR_HIT_RADIUS])
      (by norm_num [distSq, ANCHOR_HIT_RADIUS])
  · exact anchor_priority_spec.2.2.2.2.1 longPositionSelectedSample 10 70 10 50 20 70 110
      rfl rfl rfl rfl rfl (by norm_num [distSq, ANCHOR_HIT_RADIUS])
      (by norm_num [distSq, ANCHOR_HIT_RADIUS]) (by norm_num [distSq, ANCHOR_HIT_RADIUS])
  · exact anchor_priority_spec.2.2.2.2.2.1 longPositionSelectedSample 110 50 10 50 20 70 110
      rfl rfl rfl rfl rfl (by norm_num [distSq, ANCHOR_HIT_RADIUS])
      (by norm_num [distSq, ANCHOR_HIT_RADIUS]) (by norm_num [distSq, ANCHOR_HIT_RADIUS])
      (by norm_num [distSq, ANCHOR_HIT_RADIUS])
  · exact anchor_priority_spec.2.2.2.2.2.2.1 hlineSelectedSample 150 100 100 rfl rfl
      (by norm_num [hlineSelectedSample, HorizontalLine.rendererDataOf,
        HorizontalLine.optionsDefaults, distSq, ANCHOR_HIT_RADIUS])
  · exact anchor_priority_spec.2.2.2.2.2.2.2.1 vlineSelectedSample 80 70 80 rfl rfl
      (by norm_num [vlineSelectedSample, vlineSample, distSq, ANCHOR_HIT_RADIUS])
  · exact anchor_priority_spec.2.2.2.2.2.2.2.2 trendSelectedSample 0 0
      ⟨"pointer", "tl", "normal"⟩
      (by norm_num [TrendLine.hitTest, trendSelectedSample, distSqToSegment, distSq,
        HIT_TEST_TOLERANCE])

end LWC

namespace LWC

/-- C3: with direction "long", entry=100/target=120/stop=90 give
targetDelta = 20, stopDelta = 10 (20% and 10% of entry) and
riskReward = 2; with direction "short" the deltas (and percentages) are
negated while riskReward is still 2; and for every direction and
prices, riskReward is 0 when stopDelta is exactly 0. -/
theorem long_position_metrics_spec :
    LongPosition.computeMetrics LongPosition.PositionDirection.long 100 120 90 =
      ⟨20, 10, 20, 10, 2⟩ ∧
    LongPosition.computeMetrics LongPosition.PositionDirection.short 100 120 90 =
      ⟨-20, -10, -20, -10, 2⟩ ∧
    (∀ (direction : LongPosition.PositionDirection) (entry target stop : ℚ),
      (LongPosition.computeMetrics direction entry target stop).stopDelta = 0 →
      (LongPosition.computeMetrics direction entry target stop).riskRewardRatio = 0) := by
  refine ⟨?_, ?_, ?_⟩
  · norm_num [LongPosition.computeMetrics]
  · norm_num [LongPosition.computeMetrics]
    decide
  · intro direction entry target stop h
    cases direction <;> simp_all [LongPosition.computeMetrics]

/-- C3 witness: entry=100, target=120, stop=100 has stopDelta 0, and
the theorem yields riskReward 0 there. -/
theorem long_position_metrics_spec_witness :
    (LongPosition.computeMetrics LongPosition.PositionDirection.long 100 120 100).stopDelta
      = 0 ∧
    (LongPosition.computeMetrics
      LongPosition.PositionDirection.long 100 120 100).riskRewardRatio = 0 := by
  have h : (LongPosition.computeMetrics
      LongPosition.PositionDirection.long 100 120 100).stopDelta = 0 := by
    norm_num [LongPosition.computeMetrics]
  exact ⟨h, long_position_metrics_spec.2.2 LongPosition.PositionDirection.long 100 120 100 h⟩

/-- C4: for a rectangle with corner x-coordinates 20 and 80 (mapped
from times 1 and 2) in a chart of width 200, extend mode "left" gives
drawing bounds [0,80], "right" gives [20,200], "both" gives [0,200] and
"none" gives [20,80]; and for every extend mode the computed
drawTop/drawBottom are the min and max of the corner y-coordinates. -/
theorem rectangle_extend_modes_spec :
    ((Rectangle.calculateRendererData (rectStateWith Rectangle.ExtendMode.left)).map
      (fun d => (d.drawLeft, d.drawRight, d.drawTop, d.drawBottom))) = some (0, 80, 30, 90) ∧
    ((Rectangle.calculateRendererData (rectStateWith Rectangle.ExtendMode.right)).map
      (fun d => (d.drawLeft, d.drawRight, d.drawTop, d.drawBottom))) = some (20, 200, 30, 90) ∧
    ((Rectangle.calculateRendererData (rectStateWith Rectangle.ExtendMode.both)).map
      (fun d => (d.drawLeft, d.drawRight, d.drawTop, d.drawBottom))) = some (0, 200, 30, 90) ∧
    ((Rectangle.calculateRendererData (rectStateWith Rectangle.ExtendMode.none)).map
      (fun d => (d.drawLeft, d.drawRight, d.drawTop, d.drawBottom))) = some (20, 80, 30, 90) ∧
    (∀ (x1 y1 x2 y2 chartWidth : ℚ) (mode : Rectangle.ExtendMode),
      (Rectangle.computeDrawBounds x1 y1 x2 y2 chartWidth mode).2.2.1 = min y1 y2 ∧
      (Rectangle.computeDrawBounds x1 y1 x2 y2 chartWidth mode).2.2.2 = max y1 y2) := by
  refine ⟨?_, ?_, ?_, ?_, ?_⟩ <;>
    norm_num [Rectangle.calculateRendererData, rectStateWith, rectTimeScaleSample,
      seriesSample, Rectangle.computeDrawBounds, Rectangle.optionsDefaults]

/-- C5: the background-regions batching pass.  For any two same-color
regions the output is one merged fill exactly when the second region's
left edge is within half a bar width of the first batch's end,
otherwise two fills.  Concretely: regions at x 10/20/30 with bar width
10 and the same color merge into one fill spanning [5,35]; replacing
the middle region with a differently colored one yields three fill
calls, never bridging the interrupted run — the original color's batch
is split into exactly two fills. -/
theorem background_batching_spec :
    (∀ (scope : BitmapScope) (r1 r2 : BackgroundRegions.RegionData) (chartHeight : ℚ),
      r1.color = r2.color →
      BackgroundRegions.drawImpl (some ⟨[r1, r2], chartHeight⟩) scope =
        (if BackgroundRegions.regionLeftX r2 scope.horizontalPixelRatio ≤
            BackgroundRegions.regionRightX r1 scope.horizontalPixelRatio +
            r2.barWidth * scope.horizontalPixelRatio * (1 / 2) then
          [CanvasCmd.setFillStyle r1.color,
           CanvasCmd.fillRect (BackgroundRegions.regionLeftX r1 scope.horizontalPixelRatio) 0
             (BackgroundRegions.regionRightX r2 scope.horizontalPixelRatio -
               BackgroundRegions.regionLeftX r1 scope.horizontalPixelRatio)
             (jround (chartHeight * scope.verticalPixelRatio))]
        else
          [CanvasCmd.setFillStyle r1.color,
           CanvasCmd.fillRect (BackgroundRegions.regionLeftX r1 scope.horizontalPixelRatio) 0
             (BackgroundRegions.regionRightX r1 scope.horizontalPixelRatio -
               BackgroundRegions.regionLeftX r1 scope.horizontalPixelRatio)
             (jround (chartHeight * scope.verticalPixelRatio)),
           CanvasCmd.setFillStyle r2.color,
           CanvasCmd.fillRect (BackgroundRegions.regionLeftX r2 scope.horizontalPixelRatio) 0
             (BackgroundRegions.regionRightX r2 scope.horizontalPixelRatio -
               BackgroundRegions.regionLeftX r2 scope.horizontalPixelRatio)
             (jround (chartHeight * scope.verticalPixelRatio))])) ∧
    BackgroundRegions.drawImpl (some ⟨[⟨10, "A", 10⟩, ⟨20, "A", 10⟩, ⟨30, "A", 10⟩], 50⟩)
      unitScope = [CanvasCmd.setFillStyle "A", CanvasCmd.fillRect 5 0 30 50] ∧
    BackgroundRegions.drawImpl (some ⟨[⟨10, "A", 10⟩, ⟨20, "B", 10⟩, ⟨30, "A", 10⟩], 50⟩)
      unitScope =
      [CanvasCmd.setFillStyle "A", CanvasCmd.fillRect 5 0 10 50,
       CanvasCmd.setFillStyle "B", CanvasCmd.fillRect 15 0 10 50,
       CanvasCmd.setFillStyle "A", CanvasCmd.fillRect 25 0 10 50] ∧
    ((BackgroundRegions.drawImpl (some ⟨[⟨10, "A", 10⟩, ⟨20, "B", 10⟩, ⟨30, "A", 10⟩], 50⟩)
      unitScope).filter (fun c => c = CanvasCmd.setFillStyle "A")).length = 2 := by
  have hBA : ("B" : String) ≠ "A" := by decide
  have hAB : ("A" : String) ≠ "B" := by decide
  have hsplit :
      BackgroundRegions.drawImpl (some ⟨[⟨10, "A", 10⟩, ⟨20, "B", 10⟩, ⟨30, "A", 10⟩], 50⟩)
        unitScope =
        [CanvasCmd.setFillStyle "A", CanvasCmd.fillRect 5 0 10 50,
         CanvasCmd.setFillStyle "B", CanvasCmd.fillRect 15 0 10 50,
         CanvasCmd.setFillStyle "A", CanvasCmd.fillRect 25 0 10 50] := by
    norm_num [BackgroundRegions.drawImpl, BackgroundRegions.stepRegion,
      BackgroundRegions.drawBatchCmds, BackgroundRegions.regionLeftX,
      BackgroundRegions.regionRightX, unitScope, jround, hBA, hAB]
  refine ⟨?_, ?_, hsplit, ?_⟩
  · intro scope r1 r2 chartHeight hcolor
    by_cases hadj : BackgroundRegions.regionLeftX r2 scope.horizontalPixelRatio ≤
        BackgroundRegions.regionRightX r1 scope.horizontalPixelRatio +
        r2.barWidth * scope.horizontalPixelRatio * (1 / 2)
    · rw [if_pos hadj]
      simp [BackgroundRegions.drawImpl, BackgroundRegions.stepRegion,
        BackgroundRegions.drawBatchCmds, hcolor, hadj, -one_div]
    · rw [if_neg hadj]
      simp [BackgroundRegions.drawImpl, BackgroundRegions.stepRegion,
        BackgroundRegions.drawBatchCmds, hcolor, hadj, -one_div]
  · norm_num [BackgroundRegions.drawImpl, BackgroundRegions.stepRegion,
      BackgroundRegions.drawBatchCmds, BackgroundRegions.regionLeftX,
      BackgroundRegions.regionRightX, unitScope, jround, hBA, hAB]
  · rw [hsplit]
    simp

/-- C5 witness: two same-color regions at x 10 and x 30 (bar width 10)
instantiate the two-region batching law. -/
theorem background_batching_spec_witness :
    BackgroundRegions.drawImpl
      (some ⟨[⟨10, "A", 10⟩, ⟨30, "A", 10⟩], 50⟩) unitScope =
      (if BackgroundRegions.regionLeftX ⟨30, "A", 10⟩ unitScope.horizontalPixelRatio ≤
          BackgroundRegions.regionRightX ⟨10, "A", 10⟩ unitScope.horizontalPixelRatio +
          (⟨30, "A", 10⟩ : BackgroundRegions.RegionData).barWidth *
            unitScope.horizontalPixelRatio * (1 / 2) then
        [CanvasCmd.setFillStyle "A",
         CanvasCmd.fillRect (BackgroundRegions.regionLeftX ⟨10, "A", 10⟩
             unitScope.horizontalPixelRatio) 0
           (BackgroundRegions.regionRightX ⟨30, "A", 10⟩ unitScope.horizontalPixelRatio -
             BackgroundRegions.regionLeftX ⟨10, "A", 10⟩ unitScope.horizontalPixelRatio)
           (jround (50 * unitScope.verticalPixelRatio))]
      else
        [CanvasCmd.setFillStyle "A",
         CanvasCmd.fillRect (BackgroundRegions.regionLeftX ⟨10, "A", 10⟩
             unitScope.horizontalPixelRatio) 0
           (BackgroundRegions.regionRightX ⟨10, "A", 10⟩ unitScope.horizontalPixelRatio -
             BackgroundRegions.regionLeftX ⟨10, "A", 10⟩ unitScope.horizontalPixelRatio)
           (jround (50 * unitScope.verticalPixelRatio)),
         CanvasCmd.setFillStyle "A",
         CanvasCmd.fillRect (BackgroundRegions.regionLeftX ⟨30, "A", 10⟩
             unitScope.horizontalPixelRatio) 0
           (BackgroundRegions.regionRightX ⟨30, "A", 10⟩ unitScope.horizontalPixelRatio -
             BackgroundRegions.regionLeftX ⟨30, "A", 10⟩ unitScope.horizontalPixelRatio)
           (jround (50 * unitScope.verticalPixelRatio))]) :=
  background_batching_spec.1 unitScope ⟨10, "A", 10⟩ ⟨30, "A", 10⟩ 50 rfl

/-- C6: every renderer produces no drawing commands and reports no hit
when no snapshot has been set; and whenever a required coordinate of
the cached snapshot is null — the line y for the horizontal line, the
line x for the vertical line, any of the anchor/end coordinates for the
ray, any coordinate of the (extended or raw, per extendToEdges) segment
for the trend line, and any of entry/target/stop/right for the long
position — draw emits nothing and hitTest reports no hit for every
input point.  The rectangle and background-regions snapshots carry no
nullable required coordinates, so only the no-snapshot case applies to
them. -/
theorem null_propagation_spec :
    (∀ (scope : BitmapScope) (x y : ℚ),
      TrendLine.drawImpl none scope = [] ∧ TrendLine.hitTest none x y = none ∧
      Rectangle.drawImpl none scope = [] ∧ Rectangle.hitTest none x y = none ∧
      LongPosition.drawImpl none scope = [] ∧ LongPosition.hitTest none x y = none ∧
      HorizontalLine.drawImpl none scope = [] ∧ HorizontalLine.hitTest none x y = none ∧
      VerticalLine.drawImpl none scope = [] ∧ VerticalLine.hitTest none x y = none ∧
      HorizontalRay.drawImpl none scope = [] ∧ HorizontalRay.hitTest none x y = none ∧
      BackgroundRegions.drawImpl none scope = [] ∧ BackgroundRegions.hitTest = none) ∧
    (∀ (d : HorizontalLine.RendererData) (scope : BitmapScope) (x y : ℚ),
      d.y = none →
      HorizontalLine.drawImpl (some d) scope = [] ∧
      HorizontalLine.hitTest (some d) x y = none) ∧
    (∀ (d : VerticalLine.RendererData) (scope : BitmapScope) (x y : ℚ),
      d.x = none →
      VerticalLine.drawImpl (some d) scope = [] ∧
      VerticalLine.hitTest (some d) x y = none) ∧
    (∀ (d : HorizontalRay.RendererData) (scope : BitmapScope) (x y : ℚ),
      d.anchor.x = none ∨ d.anchor.y = none ∨ d.endPoint.x = none ∨ d.endPoint.y = none →
      HorizontalRay.drawImpl (some d) scope = [] ∧
      HorizontalRay.hitTest (some d) x y = none) ∧
    (∀ (d : TrendLine.RendererData) (scope : BitmapScope) (x y : ℚ),
      ((if d.extendToEdges then d.extendedStart else d.p1).x = none ∨
        (if d.extendToEdges then d.extendedStart else d.p1).y = none ∨
        (if d.extendToEdges then d.extendedEnd else d.p2).x = none ∨
        (if d.extendToEdges then d.extendedEnd else d.p2).y = none) →
      TrendLine.drawImpl (some d) scope = [] ∧
      TrendLine.hitTest (some d) x y = none) ∧
    (∀ (d : LongPosition.RendererData) (scope : BitmapScope) (x y : ℚ),
      (d.entry.x = none ∨ d.entry.y = none ∨ d.targetY = none ∨ d.stopY = none ∨
        d.rightX = none) →
      LongPosition.drawImpl (some d) scope = [] ∧
      LongPosition.hitTest (some d) x y = none) := by
  refine ⟨?_, ?_, ?_, ?_, ?_, ?_⟩
  · intro scope x y
    exact ⟨rfl, rfl, rfl, rfl, rfl, rfl, rfl, rfl, rfl, rfl, rfl, rfl, rfl, rfl⟩
  · intro d scope x y h
    constructor
    · simp only [HorizontalLine.drawImpl]
      split
      all_goals simp_all
    · simp only [HorizontalLine.hitTest]
      split
      all_goals simp_all
  · intro d scope x y h
    constructor
    · simp only [VerticalLine.drawImpl]
      split
      all_goals simp_all
    · simp only [VerticalLine.hitTest]
      split
      all_goals simp_all
  · intro d scope x y h
    constructor
    · simp only [HorizontalRay.drawImpl]
      split
      · rcases h with h | h | h | h <;> simp_all
      · rfl
    · simp only [HorizontalRay.hitTest]
      split
      · rcases h with h | h | h | h <;> simp_all
      · rfl
  · intro d scope x y h
    constructor
    · simp only [TrendLine.drawImpl]
      split
      · rcases h with h | h | h | h <;> simp_all
      · rfl
    · simp only [TrendLine.hitTest]
      split
      · rcases h with h | h | h | h <;> simp_all
      · rfl
  · intro d scope x y h
    constructor
    · simp only [LongPosition.drawImpl]
      split
      · rcases h with h | h | h | h | h <;> simp_all
      · rfl
    · simp only [LongPosition.hitTest]
      split
      · rcases h with h | h | h | h | h <;> simp_all
      · rfl

/-- C6 witness: concrete snapshots with a null required coordinate for
each nullable-coordinate renderer produce no commands and no hit. -/
theorem null_propagation_spec_witness :
    HorizontalLine.drawImpl (some hlineNullSample) unitScope = [] ∧
    HorizontalLine.hitTest (some hlineNullSample) 1 2 = none ∧
    VerticalLine.drawImpl (some vlineNullSample) unitScope = [] ∧
    VerticalLine.hitTest (some vlineNullSample) 1 2 = none ∧
    HorizontalRay.drawImpl (some rayNullSample) unitScope = [] ∧
    HorizontalRay.hitTest (some rayNullSample) 1 2 = none ∧
    TrendLine.drawImpl (some trendNullSample) unitScope = [] ∧
    TrendLine.hitTest (some trendNullSample) 1 2 = none ∧
    LongPosition.drawImpl (some longPositionNullSample) unitScope = [] ∧
    LongPosition.hitTest (some longPositionNullSample) 1 2 = none := by
  have h2 := null_propagation_spec.2.1 hlineNullSample unitScope 1 2 rfl
  have h3 := null_propagation_spec.2.2.1 vlineNullSample unitScope 1 2 rfl
  have h4 := null_propagation_spec.2.2.2.1 rayNullSample unitScope 1 2 (Or.inl rfl)
  have h5 := null_propagation_spec.2.2.2.2.1 trendNullSample unitScope 1 2
    (Or.inr (Or.inr (Or.inl rfl)))
  have h6 := null_propagation_spec.2.2.2.2.2 longPositionNullSample unitScope 1 2
    (Or.inr (Or.inr (Or.inr (Or.inr rfl))))
  exact ⟨h2.1, h2.2, h3.1, h3.2, h4.1, h4.2, h5.1, h5.2, h6.1, h6.2⟩

/-- C7 counterexample: a detached background-regions primitive that
still holds a non-empty last-good snapshot replaces it with the empty
snapshot on updateAllViews — the last good snapshot IS mutated; and a
detached trend line still answers hitTest from its stale cached
snapshot — hit test does not report "no result" after detach. -/
theorem detach_update_cex :
    bgDetachedSample.chart = none ∧
    (BackgroundRegions.updateAllViews bgDetachedSample).snapshot = some ⟨[], 0⟩ ∧
    bgDetachedSample.snapshot = some ⟨[⟨10, "A", 10⟩], 50⟩ ∧
    (BackgroundRegions.updateAllViews bgDetachedSample).snapshot ≠ bgDetachedSample.snapshot ∧
    trendDetachedSample.chart = none ∧
    TrendLine.primitiveHitTest trendDetachedSample 50 100 =
      some ⟨"pointer", "tl", "normal"⟩ := by
  refine ⟨rfl, ?_, rfl, ?_, rfl, ?_⟩
  · simp [BackgroundRegions.updateAllViews, BackgroundRegions.calculateRendererData,
      bgDetachedSample]
  · simp [BackgroundRegions.updateAllViews, BackgroundRegions.calculateRendererData,
      bgDetachedSample]
  · norm_num [TrendLine.primitiveHitTest, TrendLine.hitTest, trendDetachedSample,
      distSqToSegment, distSq, HIT_TEST_TOLERANCE]

/-- C7 (amended): after detached(), updateAllViews() is a total
function (never throws).  For the trend line it is the identity — the
renderer's last good snapshot is untouched — and autoscaleInfo reports
no result; the background-regions primitive instead unconditionally
replaces its snapshot with the empty one (domain data and options kept
intact).  Hit testing always answers from the renderer's cached
snapshot, attached or not — so a detached trend line can still report
its stale geometry.  attached() followed by updateAllViews() restores
live geometry: whatever the recomputation produces becomes the new
snapshot. -/
theorem detach_reattach_spec :
    (∀ s : TrendLine.State,
      TrendLine.updateAllViews (TrendLine.detachedStep s) = TrendLine.detachedStep s) ∧
    (∀ (s : TrendLine.State) (startTimePoint endTimePoint : ℚ),
      TrendLine.autoscaleInfo (TrendLine.detachedStep s) startTimePoint endTimePoint = none) ∧
    (∀ s : BackgroundRegions.State,
      (BackgroundRegions.updateAllViews (BackgroundRegions.detachedStep s)).snapshot =
        some ⟨[], 0⟩ ∧
      (BackgroundRegions.updateAllViews (BackgroundRegions.detachedStep s)).data = s.data ∧
      (BackgroundRegions.updateAllViews (BackgroundRegions.detachedStep s)).options =
        s.options) ∧
    (∀ (s : TrendLine.State) (x y : ℚ),
      TrendLine.primitiveHitTest s x y = TrendLine.hitTest s.snapshot x y) ∧
    (∀ (timeScale : TimeScaleApi) (series : SeriesApi) (s : TrendLine.State)
        (d : TrendLine.RendererData),
      TrendLine.calculateRendererData (TrendLine.attachedStep timeScale series s) = some d →
      (TrendLine.updateAllViews (TrendLine.attachedStep timeScale series s)).snapshot =
        some d) ∧
    (∀ (timeScale : TimeScaleApi) (series : SeriesApi) (s : BackgroundRegions.State),
      (BackgroundRegions.updateAllViews
        (BackgroundRegions.attachedStep timeScale series s)).snapshot =
        some (BackgroundRegions.calculateRendererData
          (BackgroundRegions.attachedStep timeScale series s))) := by
  refine ⟨?_, ?_, ?_, ?_, ?_, ?_⟩
  · intro s
    simp [TrendLine.updateAllViews, TrendLine.calculateRendererData, TrendLine.detachedStep]
  · intro s startTimePoint endTimePoint
    simp [TrendLine.autoscaleInfo, TrendLine.getPointLogicalIndex, TrendLine.detachedStep]
  · intro s
    refine ⟨?_, rfl, rfl⟩
    simp [BackgroundRegions.updateAllViews, BackgroundRegions.calculateRendererData,
      BackgroundRegions.detachedStep]
  · intro s x y
    rfl
  · intro timeScale series s d h
    simp [TrendLine.updateAllViews, h]
  · intro timeScale series s
    rfl

/-- C7 witness: re-attaching the detached trend line to a concrete host
recomputes a live snapshot, and updateAllViews installs it. -/
theorem detach_reattach_spec_witness :
    TrendLine.calculateRendererData
      (TrendLine.attachedStep hostTimeScaleSample hostSeriesSample trendDetachedSample) =
      some trendLiveSnapshotSample ∧
    (TrendLine.updateAllViews
      (TrendLine.attachedStep hostTimeScaleSample hostSeriesSample
        trendDetachedSample)).snapshot = some trendLiveSnapshotSample := by
  have hcalc : TrendLine.calculateRendererData
      (TrendLine.attachedStep hostTimeScaleSample hostSeriesSample trendDetachedSample) =
      some trendLiveSnapshotSample := by
    norm_num [TrendLine.calculateRendererData, TrendLine.attachedStep, trendDetachedSample,
      hostTimeScaleSample, hostSeriesSample, TrendLine.calculateExtendedLine, jabs,
      TrendLine.optionsDefaults, trendLiveSnapshotSample]
  exact ⟨hcalc,
    detach_reattach_spec.2.2.2.2.1 hostTimeScaleSample hostSeriesSample trendDetachedSample
      trendLiveSnapshotSample hcalc⟩

/-- C8: applyOptions merges field-by-field — after the merge, every
field carries the partial's value when specified and the prior value
when not (so no default ever overwrites a prior value), the empty
partial is a content no-op, and the primitive-level applyOptions
changes only the options, leaving anchors and snapshot intact. -/
theorem options_merge_spec :
    (∀ (current : TrendLine.Options) (p : TrendLine.PartialOptions),
      (TrendLine.applyOptionsMerge current p).lineColor = p.lineColor.getD current.lineColor ∧
      (TrendLine.applyOptionsMerge current p).lineWidth = p.lineWidth.getD current.lineWidth ∧
      (TrendLine.applyOptionsMerge current p).lineStyle = p.lineStyle.getD current.lineStyle ∧
      (TrendLine.applyOptionsMerge current p).showLabels = p.showLabels.getD current.showLabels ∧
      (TrendLine.applyOptionsMerge current p).labelBackgroundColor =
        p.labelBackgroundColor.getD current.labelBackgroundColor ∧
      (TrendLine.applyOptionsMerge current p).labelTextColor =
        p.labelTextColor.getD current.labelTextColor ∧
      (TrendLine.applyOptionsMerge current p).extendToEdges =
        p.extendToEdges.getD current.extendToEdges ∧
      (TrendLine.applyOptionsMerge current p).externalId = p.externalId.getD current.externalId ∧
      (TrendLine.applyOptionsMerge current p).selected = p.selected.getD current.selected ∧
      (TrendLine.applyOptionsMerge current p).anchorPointColor =
        p.anchorPointColor.getD current.anchorPointColor) ∧
    (∀ current : TrendLine.Options, TrendLine.applyOptionsMerge current {} = current) ∧
    (∀ (s : TrendLine.State) (p : TrendLine.PartialOptions),
      (TrendLine.applyOptionsStep s p).options = TrendLine.applyOptionsMerge s.options p ∧
      (TrendLine.applyOptionsStep s p).p1 = s.p1 ∧
      (TrendLine.applyOptionsStep s p).p2 = s.p2 ∧
      (TrendLine.applyOptionsStep s p).snapshot = s.snapshot) := by
  refine ⟨?_, ?_, ?_⟩
  · intro current p
    exact ⟨rfl, rfl, rfl, rfl, rfl, rfl, rfl, rfl, rfl, rfl⟩
  · intro current
    rfl
  · intro s p
    exact ⟨rfl, rfl, rfl, rfl⟩

/-- C9: a horizontal line built from the default options with snapshot
y-coordinate 100 is hit at vertical distance exactly 6 (hitTest(x,106)
hits) and missed at 6.01 (hitTest(x,106.01) misses), for any x within
the chart width. -/
theorem hline_tolerance_boundary_spec :
    ∀ chartWidth x : ℚ, 0 ≤ x → x ≤ chartWidth →
      HorizontalLine.hitTest
        (some (HorizontalLine.rendererDataOf HorizontalLine.optionsDefaults (some 100)
          chartWidth)) x 106 = some ⟨"pointer", "", "normal"⟩ ∧
      HorizontalLine.hitTest
        (some (HorizontalLine.rendererDataOf HorizontalLine.optionsDefaults (some 100)
          chartWidth)) x (10601 / 100) = none := by
  intro chartWidth x hx1 hx2
  constructor <;>
    norm_num [HorizontalLine.hitTest, HorizontalLine.rendererDataOf,
      HorizontalLine.optionsDefaults, jabs, HIT_TEST_TOLERANCE]

/-- C9 witness: the boundary behaviour at x = 10 in a chart of width
200. -/
theorem hline_tolerance_boundary_spec_witness :
    ((0 : ℚ) ≤ 10) ∧ ((10 : ℚ) ≤ 200) ∧
    HorizontalLine.hitTest
      (some (HorizontalLine.rendererDataOf HorizontalLine.optionsDefaults (some 100) 200))
      10 106 = some ⟨"pointer", "", "normal"⟩ ∧
    HorizontalLine.hitTest
      (some (HorizontalLine.rendererDataOf HorizontalLine.optionsDefaults (some 100) 200))
      10 (10601 / 100) = none := by
  have h := hline_tolerance_boundary_spec 200 10 (by norm_num) (by norm_num)
  exact ⟨by norm_num, by norm_num, h.1, h.2⟩

/-- C10: for a non-selected horizontal line with non-null line y, the
hit test ignores x entirely: it hits exactly when |y' − lineY| ≤ 6, for
every x including x outside [0, chartWidth]; symmetrically the
vertical-line hit test hits exactly when |x − lineX| ≤ 6, for every y. -/
theorem line_hit_ignores_parallel_axis_spec :
    (∀ (d : HorizontalLine.RendererData) (lineY x y : ℚ),
      d.selected = false → d.y = some lineY →
      (HorizontalLine.hitTest (some d) x y ≠ none ↔ |y - lineY| ≤ 6)) ∧
    (∀ (d : VerticalLine.RendererData) (lineX x y : ℚ),
      d.selected = false → d.x = some lineX →
      (VerticalLine.hitTest (some d) x y ≠ none ↔ |x - lineX| ≤ 6)) := by
  constructor
  · intro d lineY x y hsel hy
    rw [← jabs_eq_abs]
    simp [HorizontalLine.hitTest, hsel, hy, HIT_TEST_TOLERANCE]
  · intro d lineX x y hsel hx
    rw [← jabs_eq_abs]
    simp [VerticalLine.hitTest, hsel, hx, HIT_TEST_TOLERANCE]

/-- C10 witness: the horizontal line at y 100 is hit at x = −50 (well
outside the chart width) and the vertical line at x 80 is hit at
y = −999. -/
theorem line_hit_ignores_parallel_axis_spec_witness :
    HorizontalLine.hitTest
      (some (HorizontalLine.rendererDataOf HorizontalLine.optionsDefaults (some 100) 200))
      (-50) 103 ≠ none ∧
    VerticalLine.hitTest (some vlineSample) 83 (-999) ≠ none := by
  constructor
  · exact (line_hit_ignores_parallel_axis_spec.1 _ 100 (-50) 103 rfl rfl).mpr (by norm_num)
  · exact (line_hit_ignores_parallel_axis_spec.2 vlineSample 80 83 (-999) rfl rfl).mpr
      (by norm_num)

end LWC
